import Mathlib

/-!
Verification of the eto-mcp conversational tour-search bot.

Shallow embedding conventions:
* JavaScript numbers are modelled as exact values: integers as `Int`, and
  fractional intermediate values as `Frac` (an unreduced fraction of `Int`s,
  so that all arithmetic is kernel-computable).  Decimal literals of the
  source (`0.9`, `1.1`, `1.2`, ...) become the corresponding exact fractions.
* Strings are modelled as `List Char`; texts that the source lowercases with
  `toLowerCase()` are modelled by their lowercased image.
* The regular-expression layer of the budget extractor is modelled by a
  record of match results (`MoneyTok`, `RangeToks`, `BudgetView`); the
  arithmetic and priority cascade acting on those matches is translated
  from the source.
-/

set_option maxRecDepth 4000

namespace Spec2Proof

/-! ## Exact fractions (kernel-computable stand-in for JS float arithmetic) -/

/-- An unreduced fraction of integers.  All fractions built by the model have
a positive denominator. -/
structure Frac where
  num : Int
  den : Int
  deriving DecidableEq, Repr

/-- Embed an integer. -/
def intF (n : Int) : Frac := ⟨n, 1⟩

/-- Fraction literal `p / q` (used for the decimal literals of the source). -/
def fracF (p q : Int) : Frac := ⟨p, q⟩

def addF (x y : Frac) : Frac := ⟨x.num * y.den + y.num * x.den, x.den * y.den⟩

def subF (x y : Frac) : Frac := ⟨x.num * y.den - y.num * x.den, x.den * y.den⟩

def mulF (x y : Frac) : Frac := ⟨x.num * y.num, x.den * y.den⟩

/-- Division by a positive integer constant (all divisions in the source are
by positive constants). -/
def divNF (x : Frac) (n : Int) : Frac := ⟨x.num, x.den * n⟩

/-- `x ≤ y` for fractions with positive denominators. -/
def lebF (x y : Frac) : Bool := decide (x.num * y.den ≤ y.num * x.den)

/-- `x < y` for fractions with positive denominators. -/
def ltbF (x y : Frac) : Bool := decide (x.num * y.den < y.num * x.den)

/-- Floor of a fraction with positive denominator (`Int` division `/` is
euclidean division, which is floor division for positive divisors). -/
def floorF (x : Frac) : Int := x.num / x.den

/-- `Math.max` on fractions. -/
def maxF (x y : Frac) : Frac := if lebF x y then y else x

/-- `Math.min` on fractions. -/
def minF (x y : Frac) : Frac := if lebF x y then x else y

/-- JS `Math.round`: round half towards `+∞`, i.e. `⌊x + 1/2⌋`. -/
def jsRound (x : Frac) : Int := floorF (addF x (fracF 1 2))

/-! ## `getMissingFields` / `nextAiAwaiting` (bot, slot-filling draft manager)

The draft is `Partial<SearchToursInput>`: every field optional.  A field
being a "finite number" in JS (`Number.isFinite(Number(v))`) corresponds to
the `Option` being `some` (schema-parsed values are finite numbers). -/

/-- `Partial<SearchToursInput>` — the slot-filling draft. -/
structure SearchDraft where
  country_id : Option Int := none
  country_name : Option (List Char) := none
  nights_min : Option Int := none
  nights_max : Option Int := none
  budget_min : Option Int := none
  budget_max : Option Int := none
  adults : Option Int := none
  date_from : Option (List Char) := none
  date_to : Option (List Char) := none
  period : Option (List Char) := none
  meal : Option (List Char) := none
  deriving DecidableEq, Repr

/-- Strip leading and trailing whitespace (JS `String.prototype.trim`). -/
def trimText (t : List Char) : List Char :=
  ((t.dropWhile Char.isWhitespace).reverse.dropWhile Char.isWhitespace).reverse

/-- `typeof draft.country_id === "number" || (typeof draft.country_name === "string" && draft.country_name.trim() !== "")` -/
def draftHasCountry (d : SearchDraft) : Bool :=
  d.country_id.isSome ||
    (match d.country_name with
     | some s => decide (trimText s ≠ [])
     | none => false)

/-- `Number.isFinite(Number(draft.nights_min)) && Number.isFinite(Number(draft.nights_max))` -/
def draftHasNights (d : SearchDraft) : Bool :=
  d.nights_min.isSome && d.nights_max.isSome

/-- `Number.isFinite(Number(draft.budget_max)) && Number(draft.budget_max) > 0` -/
def draftHasBudget (d : SearchDraft) : Bool :=
  match d.budget_max with
  | some b => decide (0 < b)
  | none => false

/-- The three required slots. -/
inductive MissingField where
  | country
  | nights
  | budget
  deriving DecidableEq, Repr

/-- `getMissingFields` (bot source): pushes `country`, `nights`, `budget`
in this order whenever the corresponding slot is absent. -/
def getMissingFields (d : SearchDraft) : List MissingField :=
  (if draftHasCountry d then [] else [MissingField.country]) ++
  (if draftHasNights d then [] else [MissingField.nights]) ++
  (if draftHasBudget d then [] else [MissingField.budget])

/-- `aiAwaiting` values (the source type also has an unused `nights_budget`). -/
inductive AwaitKind where
  | country
  | nights
  | budget
  | nightsBudget
  deriving DecidableEq, Repr

/-- `nextAiAwaiting` (bot source). -/
def nextAiAwaiting (d : SearchDraft) : Option AwaitKind :=
  if !draftHasCountry d then some AwaitKind.country
  else if !draftHasNights d then some AwaitKind.nights
  else if !draftHasBudget d then some AwaitKind.budget
  else none

/-- Spec-side slot-presence predicate, written from the claim's words:
country present when given by numeric id or by non-blank name, nights when
both bounds are present finite numbers, budget when `budget_max` is a
present finite number greater than zero. -/
def slotPresent (d : SearchDraft) : MissingField → Bool
  | MissingField.country => draftHasCountry d
  | MissingField.nights => draftHasNights d
  | MissingField.budget => draftHasBudget d

def missingToAwait : MissingField → AwaitKind
  | MissingField.country => AwaitKind.country
  | MissingField.nights => AwaitKind.nights
  | MissingField.budget => AwaitKind.budget

/-- C1.  For every partial search draft, `getMissingFields` reports exactly
the required slots not present — country counting as present via id or
non-empty name, nights when both bounds are present, budget when
`budget_max` is present and positive — listed in the fixed order
country → nights → budget, and `nextAiAwaiting` is the first missing slot
in that order, or `null` when none is missing. -/
theorem missing_slots_exact_and_awaiting_first (d : SearchDraft) :
    getMissingFields d
      = [MissingField.country, MissingField.nights, MissingField.budget].filter
          (fun f => !slotPresent d f) ∧
    nextAiAwaiting d = (getMissingFields d).head?.map missingToAwait := by
  unfold getMissingFields nextAiAwaiting
  cases hc : draftHasCountry d <;> cases hn : draftHasNights d <;>
    cases hb : draftHasBudget d <;>
      simp [List.filter, slotPresent, missingToAwait, hc, hn, hb]

/-! ## Text utilities and unsupported-destination classification

Texts are `List Char`; all texts handled below are the `toLowerCase()` image
of the user message (the source lowercases before every check). -/

/-- `haystack.includes(needle)` (JS substring containment). -/
def containsTok (t tok : List Char) : Bool :=
  t.tails.any (fun s => tok.isPrefixOf s)

/-- Shorthand for string literals as char lists. -/
def strT (s : String) : List Char := s.toList

/-- The six supported destinations. -/
inductive Country where
  | Turkey
  | Egypt
  | Thailand
  | UAE
  | Maldives
  | Seychelles
  deriving DecidableEq, Repr

/-- `COUNTRY_TO_ID` (bot/orchestrator source). -/
def countryToId : Country → Int
  | Country.Turkey => 47
  | Country.Egypt => 54
  | Country.Thailand => 29
  | Country.UAE => 63
  | Country.Maldives => 90
  | Country.Seychelles => 91

/-- `normalizeCountryName` (orchestrator source), acting on the lowercased
text: trims, then tests an exact English name or a substring pattern per
country, in source order Turkey, Egypt, UAE, Thailand, Maldives,
Seychelles. -/
def normalizeCountryName (t : List Char) : Option Country :=
  let lower := trimText t
  if lower.isEmpty then none
  else if lower = strT "turkey" || containsTok lower (strT "турц") then some Country.Turkey
  else if lower = strT "egypt" || containsTok lower (strT "егип") then some Country.Egypt
  else if lower = strT "uae" || containsTok lower (strT "оаэ") ||
          containsTok lower (strT "эмират") || containsTok lower (strT "дубай") ||
          containsTok lower (strT "emirates") then some Country.UAE
  else if lower = strT "thailand" || containsTok lower (strT "тай") ||
          containsTok lower (strT "таил") then some Country.Thailand
  else if lower = strT "maldives" || containsTok lower (strT "мальдив") then some Country.Maldives
  else if lower = strT "seychelles" || containsTok lower (strT "сейшел") then some Country.Seychelles
  else none

/-- The substring patterns of `hasUnsupportedDestinationMention`
(orchestrator source). -/
def unsupportedTokens : List (List Char) :=
  [strT "африк", strT "africa", strT "вьет", strT "vietnam",
   strT "росси", strT "russia", strT "итал", strT "italy",
   strT "австрал", strT "australia", strT "испан", strT "spain"]

/-- `hasUnsupportedDestinationMention` (orchestrator source): false as soon
as a supported country is recognized, otherwise true iff one of the
unsupported substrings occurs. -/
def hasUnsupportedDestinationMention (t : List Char) : Bool :=
  if (normalizeCountryName t).isSome then false
  else
    containsTok t (strT "африк") || containsTok t (strT "africa") ||
    containsTok t (strT "вьет") || containsTok t (strT "vietnam") ||
    containsTok t (strT "росси") || containsTok t (strT "russia") ||
    containsTok t (strT "итал") || containsTok t (strT "italy") ||
    containsTok t (strT "австрал") || containsTok t (strT "australia") ||
    containsTok t (strT "испан") || containsTok t (strT "spain")

/-- `looksLikeTravelText` (orchestrator source). -/
def looksLikeTravelText (t : List Char) : Bool :=
  containsTok t (strT "тур") || containsTok t (strT "отпуск") ||
  containsTok t (strT "поехать") || containsTok t (strT "хочу")

/-- Validated LLM intent (`ParsedIntent`), with the pieces
`handleUserMessage` inspects: for `search_tours` the optional country name
of its args, for `unknown` whether the reason is `unsupported_country`. -/
inductive ParsedIntent where
  | search_tours (country_name : Option (List Char))
  | meta
  | smalltalk
  | unknown (reasonUnsupportedCountry : Bool)
  deriving DecidableEq, Repr

/-- Classification outcome of `handleUserMessage` (the `meta.intent_type`
together with the `unsupported_country` reason). -/
inductive OrchClass where
  | unsupported
  | searchTours
  | meta
  | smalltalk
  | unknownReply
  deriving DecidableEq, Repr

/-- The branch structure of `handleUserMessage` (orchestrator source):
the unsupported-destination check runs first; a `search_tours` intent with
an unrecognized country name is downgraded to unsupported; an `unknown`
intent falls back to a rule-detected country or travel-looking text, and
otherwise surfaces the unsupported reply only for the
`unsupported_country` reason. -/
def handleUserMessageClass (input : List Char) (intent : ParsedIntent) : OrchClass :=
  if hasUnsupportedDestinationMention input then OrchClass.unsupported
  else
    match intent with
    | ParsedIntent.search_tours cn =>
        match cn with
        | some name =>
            if (normalizeCountryName name).isNone then OrchClass.unsupported
            else OrchClass.searchTours
        | none => OrchClass.searchTours
    | ParsedIntent.meta => OrchClass.meta
    | ParsedIntent.smalltalk => OrchClass.smalltalk
    | ParsedIntent.unknown reasonUnsupported =>
        if (normalizeCountryName input).isSome then OrchClass.searchTours
        else if looksLikeTravelText input then OrchClass.searchTours
        else if reasonUnsupported then OrchClass.unsupported
        else OrchClass.unknownReply

/-- C4 counterexample.  The message `"италия или турция"` mentions the
unsupported destination Италия, yet — because a supported country is also
mentioned — it is not answered as unsupported and is classified as a
`search_tours` intent. -/
theorem unsupported_mention_overridden_by_supported_country :
    containsTok (strT "италия или турция") (strT "итал") = true ∧
    handleUserMessageClass (strT "италия или турция")
        (ParsedIntent.search_tours none) = OrchClass.searchTours := by
  constructor
  · decide
  · decide

/-- C4 amended.  A message containing one of the fixed unsupported-destination
substrings, and in which no supported destination is recognized, is always
answered as unsupported, whatever the classifier intent — in particular it is
never classified as `search_tours`. -/
theorem unsupported_mention_short_circuits (t : List Char) (tok : List Char)
    (hmem : tok ∈ unsupportedTokens) (hocc : containsTok t tok = true)
    (hsup : normalizeCountryName t = none) (intent : ParsedIntent) :
    handleUserMessageClass t intent = OrchClass.unsupported ∧
    handleUserMessageClass t intent ≠ OrchClass.searchTours := by
  have hmention : hasUnsupportedDestinationMention t = true := by
    unfold hasUnsupportedDestinationMention
    rw [hsup]
    simp only [Option.isSome_none, Bool.false_eq_true, if_false]
    simp only [unsupportedTokens, List.mem_cons, List.not_mem_nil, or_false] at hmem
    rcases hmem with h | h | h | h | h | h | h | h | h | h | h | h <;>
      subst h <;> simp [hocc]
  unfold handleUserMessageClass
  rw [hmention]
  simp

/-- Witness for `unsupported_mention_short_circuits`: the message
`"хочу в италию"` mentions Италия and no supported destination. -/
theorem unsupported_mention_short_circuits_witness :
    handleUserMessageClass (strT "хочу в италию") (ParsedIntent.search_tours none)
      = OrchClass.unsupported := by
  exact (unsupported_mention_short_circuits (strT "хочу в италию") (strT "итал")
    (by decide) (by decide) (by decide) (ParsedIntent.search_tours none)).1

/-! ## Budget extraction (`extractBudget`, `parseMoneyToken`)

The regex layer is abstracted: a `MoneyTok` is one money token as matched by
the source regexes (its digit value and whether a thousands marker
`к`/`k`/`тыс`/`т.р.`/`т` is attached), and a `BudgetView` records which of
the cascade's patterns matched the message.  `parseMoneyToken` and the
cascade logic are translated from the source. -/

/-- One matched money token: concatenated digits value and thousands marker. -/
structure MoneyTok where
  digits : Nat
  hasK : Bool
  deriving DecidableEq, Repr

/-- `parseMoneyToken` (nlu source): empty/zero digits fail, the thousands
marker (own or forced by the shared-range marker) multiplies by 1000;
`Math.round` on an integer is the identity. -/
def parseMoneyToken (tok : MoneyTok) (forceThousands : Bool) : Option Int :=
  if tok.digits = 0 then none
  else some (if tok.hasK || forceThousands then (tok.digits : Int) * 1000 else (tok.digits : Int))

/-- The two side tokens of a matched `от A до B` / `A–B` range. -/
structure RangeToks where
  left : MoneyTok
  right : MoneyTok
  deriving DecidableEq, Repr

/-- `BudgetIntent` (nlu source). -/
inductive BudgetIntent where
  | max (max : Int)
  | range (min max : Int)
  | approx (value min max : Int)
  deriving DecidableEq, Repr

/-- `APPROX_PCT = 0.1`. -/
def approxPct : Frac := fracF 1 10

/-- `round100` (nlu source): `Math.round(n / 100) * 100`. -/
def round100 (x : Frac) : Int := jsRound (divNF x 100) * 100

/-- Lower edge of the ±10 % band: `round100(value * (1 - APPROX_PCT))`. -/
def approxMin (v : Int) : Int := round100 (mulF (intF v) (subF (intF 1) approxPct))

/-- Upper edge of the ±10 % band: `round100(value * (1 + APPROX_PCT))`. -/
def approxMax (v : Int) : Int := round100 (mulF (intF v) (addF (intF 1) approxPct))

/-- The approx-budget value built by the `approxMatch`, `approxTrailing` and
`bareMoney` branches (identical formulas in the source):
`{ type: "approx", value, min: Math.min(min,max), max: Math.max(min,max) }`. -/
def mkApprox (v : Int) : BudgetIntent :=
  BudgetIntent.approx v (min (approxMin v) (approxMax v)) (max (approxMin v) (approxMax v))

/-- Shared-thousands-marker range extraction (identical in the `от A до B`
and `A–B` branches): a marker on either side forces the other side's
multiplier. -/
def extractRangeBudget (r : RangeToks) : Option BudgetIntent :=
  let sharedThousands := r.left.hasK || r.right.hasK
  match parseMoneyToken r.left (sharedThousands && !r.left.hasK),
        parseMoneyToken r.right (sharedThousands && !r.right.hasK) with
  | some a, some b => some (BudgetIntent.range (min a b) (max a b))
  | _, _ => none

/-- Which of `extractBudget`'s regex patterns matched the message, in the
source's priority order. -/
structure BudgetView where
  rangeFromTo : Option RangeToks := none
  dashRange : Option RangeToks := none
  maxTok : Option MoneyTok := none
  approxTok : Option MoneyTok := none
  approxTrailing : Option MoneyTok := none
  bareTok : Option MoneyTok := none
  deriving DecidableEq, Repr

/-- `extractBudget` (nlu source): the priority cascade — from-to range,
dash range, explicit max, leading approx marker, trailing approx marker,
bare number (defaulting to approx); a branch whose token fails to parse
falls through to the next. -/
def extractBudget (v : BudgetView) : Option BudgetIntent :=
  match v.rangeFromTo.bind extractRangeBudget with
  | some b => some b
  | none =>
  match v.dashRange.bind extractRangeBudget with
  | some b => some b
  | none =>
  match v.maxTok.bind (fun tok => (parseMoneyToken tok false).map BudgetIntent.max) with
  | some b => some b
  | none =>
  match v.approxTok.bind (fun tok => (parseMoneyToken tok false).map mkApprox) with
  | some b => some b
  | none =>
  match v.approxTrailing.bind (fun tok => (parseMoneyToken tok false).map mkApprox) with
  | some b => some b
  | none =>
  match v.bareTok.bind (fun tok => (parseMoneyToken tok false).map mkApprox) with
  | some b => some b
  | none => none

/-- A view in which only the bare-number pattern matched. -/
def viewBare (tok : MoneyTok) : BudgetView := { bareTok := some tok }

/-- A view in which only the leading approx-marker pattern matched. -/
def viewApprox (tok : MoneyTok) : BudgetView := { approxTok := some tok }

/-- A view in which only the dash-range pattern matched. -/
def viewDash (l r : MoneyTok) : BudgetView := { dashRange := some ⟨l, r⟩ }

/-- `extractBudgetFromText` (bot and orchestrator sources): `budget.max`
for every intent type. -/
def extractBudgetMax (v : BudgetView) : Option Int :=
  match extractBudget v with
  | some (BudgetIntent.max m) => some m
  | some (BudgetIntent.range _ m) => some m
  | some (BudgetIntent.approx _ _ m) => some m
  | none => none

/-! ### C6: shared thousands marker on ranges -/

/-- C6.  In a range expression, a thousands marker stated on either side
scales both sides (`'90–120к'` ⇒ 90000–120000, see the witness), and every
extracted range budget has `min ≤ max`. -/
theorem range_budget_shared_marker_and_ordered :
    (∀ l r : MoneyTok, 0 < l.digits → 0 < r.digits → (l.hasK || r.hasK) = true →
      extractRangeBudget ⟨l, r⟩
        = some (BudgetIntent.range (min ((l.digits : Int) * 1000) ((r.digits : Int) * 1000))
            (max ((l.digits : Int) * 1000) ((r.digits : Int) * 1000)))) ∧
    (∀ (v : BudgetView) (mn mx : Int),
      extractBudget v = some (BudgetIntent.range mn mx) → mn ≤ mx) := by
  constructor
  · intro l r hl hr hk
    unfold extractRangeBudget parseMoneyToken
    cases hlK : l.hasK <;> cases hrK : r.hasK <;>
      simp_all [Nat.pos_iff_ne_zero]
  · intro v mn mx h
    have hrange : ∀ (rt : RangeToks) (b : BudgetIntent),
        extractRangeBudget rt = some b →
        b = BudgetIntent.range mn mx → mn ≤ mx := by
      intro rt b hb heq
      unfold extractRangeBudget at hb
      rcases h1 : parseMoneyToken rt.left ((rt.left.hasK || rt.right.hasK) && !rt.left.hasK) with _ | a <;>
        rcases h2 : parseMoneyToken rt.right ((rt.left.hasK || rt.right.hasK) && !rt.right.hasK) with _ | b' <;>
          simp [h1, h2] at hb
      subst hb
      cases heq
      exact min_le_max
    have hnonrange : ∀ (f : Int → BudgetIntent) (o : Option MoneyTok) (b : BudgetIntent),
        o.bind (fun tok => (parseMoneyToken tok false).map f) = some b →
        (∀ w, f w ≠ BudgetIntent.range mn mx) → b = BudgetIntent.range mn mx → mn ≤ mx := by
      intro f o b heq hne h'
      obtain ⟨tok, -, hf⟩ := Option.bind_eq_some.mp heq
      obtain ⟨w, -, hw⟩ := Option.map_eq_some'.mp hf
      exact absurd (hw.trans h') (hne w)
    unfold extractBudget at h
    split at h
    next b heq =>
      injection h with h'
      obtain ⟨rt, -, hrt⟩ := Option.bind_eq_some.mp heq
      exact hrange rt b hrt h'
    next =>
      split at h
      next b heq =>
        injection h with h'
        obtain ⟨rt, -, hrt⟩ := Option.bind_eq_some.mp heq
        exact hrange rt b hrt h'
      next =>
        split at h
        next b heq =>
          injection h with h'
          exact hnonrange BudgetIntent.max v.maxTok b heq (by intro w hw; cases hw) h'
        next =>
          split at h
          next b heq =>
            injection h with h'
            exact hnonrange mkApprox v.approxTok b heq
              (by intro w hw; simp [mkApprox] at hw) h'
          next =>
            split at h
            next b heq =>
              injection h with h'
              exact hnonrange mkApprox v.approxTrailing b heq
                (by intro w hw; simp [mkApprox] at hw) h'
            next =>
              split at h
              next b heq =>
                injection h with h'
                exact hnonrange mkApprox v.bareTok b heq
                  (by intro w hw; simp [mkApprox] at hw) h'
              next => exact Option.noConfusion h

/-- Witness for `range_budget_shared_marker_and_ordered`: `"90–120к"`
(marker only on the right side) extracts `min = 90000`, `max = 120000`. -/
theorem range_budget_shared_marker_witness :
    extractRangeBudget ⟨⟨90, false⟩, ⟨120, true⟩⟩
      = some (BudgetIntent.range 90000 120000) ∧
    extractBudget (viewDash ⟨90, false⟩ ⟨120, true⟩)
      = some (BudgetIntent.range 90000 120000) ∧ (90000 : Int) ≤ 120000 := by
  refine ⟨?_, by decide, ?_⟩
  · have h := (range_budget_shared_marker_and_ordered.1) ⟨90, false⟩ ⟨120, true⟩
      (by decide) (by decide) (by decide)
    simpa using h
  · exact range_budget_shared_marker_and_ordered.2
      (viewDash ⟨90, false⟩ ⟨120, true⟩) 90000 120000 (by decide)

/-! ### C5: bare-number budget defaults to the ±10 % approx band -/

/-- `extractBudgetRangeFromText` (bot/orchestrator sources): the
`{min,max}` pair for `range` and `approx` budgets, nothing otherwise. -/
def extractBudgetRangeOfText (bi : Option BudgetIntent) : Option (Int × Int) :=
  match bi with
  | some (BudgetIntent.range mn mx) => some (mn, mx)
  | some (BudgetIntent.approx _ mn mx) => some (mn, mx)
  | _ => none

/-- `budget.max` of an extracted intent (`extractBudgetFromText`). -/
def budgetMaxOfText (bi : Option BudgetIntent) : Option Int :=
  match bi with
  | some (BudgetIntent.max m) => some m
  | some (BudgetIntent.range _ m) => some m
  | some (BudgetIntent.approx _ _ m) => some m
  | none => none

/-- `draft.budget_max === undefined || draft.budget_max <= 0`. -/
def budgetUnsetOrNonpos (o : Option Int) : Bool :=
  match o with
  | none => true
  | some b => decide (b ≤ 0)

/-- The budget section of `buildDraftArgs` (orchestrator source): first the
range/approx pair fills `budget_min`/`budget_max` when the draft has no
positive budget, then a plain extracted max fills `budget_max` under the
same re-checked condition. -/
def applyBudgetToDraft (d : SearchDraft) (bi : Option BudgetIntent) : SearchDraft :=
  let d1 :=
    if budgetUnsetOrNonpos d.budget_max then
      match extractBudgetRangeOfText bi with
      | some (mn, mx) => { d with budget_min := some mn, budget_max := some mx }
      | none => d
    else d
  if budgetUnsetOrNonpos d1.budget_max then
    match budgetMaxOfText bi with
    | some m => { d1 with budget_max := some m }
    | none => d1
  else d1

/-- A positive parse result of a money token. -/
theorem parseMoneyToken_pos (tok : MoneyTok) (force : Bool) (v : Int)
    (h : parseMoneyToken tok force = some v) : 0 < v := by
  unfold parseMoneyToken at h
  rcases hd : tok.digits with _ | n
  · simp [hd] at h
  · rw [hd] at h
    simp only [Nat.succ_ne_zero, if_false, Option.some.injEq] at h
    subst h
    split <;> positivity

/-- The band edges are ordered for nonnegative values. -/
theorem approxMin_le_approxMax (v : Int) (hv : 0 ≤ v) : approxMin v ≤ approxMax v := by
  simp only [approxMin, approxMax, round100, jsRound, floorF, addF, subF, mulF,
    divNF, intF, fracF, approxPct]
  omega

/-- C5 amended.  A bare number with no qualifying word — equally a number
with an explicit approx marker — extracts an approx-type budget with
`min = round100(value*0.9)`, `max = round100(value*1.1)` and `min ≤ max`;
merged into a draft that already has country and nights (and no positive
budget yet), it completes the draft — provided the derived band maximum is
positive (`value ≥ 46`), which the counterexample shows is necessary. -/
theorem bare_budget_approx_band_completes_draft (tok : MoneyTok) (v : Int) (d : SearchDraft)
    (hp : parseMoneyToken tok false = some v)
    (hc : draftHasCountry d = true) (hn : draftHasNights d = true)
    (hb : draftHasBudget d = false)
    (hpos : 0 < approxMax v) :
    extractBudget (viewBare tok) = some (BudgetIntent.approx v (approxMin v) (approxMax v)) ∧
    extractBudget (viewApprox tok) = some (BudgetIntent.approx v (approxMin v) (approxMax v)) ∧
    approxMin v ≤ approxMax v ∧
    getMissingFields (applyBudgetToDraft d (extractBudget (viewBare tok))) = [] ∧
    nextAiAwaiting (applyBudgetToDraft d (extractBudget (viewBare tok))) = none := by
  have hv : 0 < v := parseMoneyToken_pos tok false v hp
  have hband := approxMin_le_approxMax v hv.le
  have hmk : mkApprox v = BudgetIntent.approx v (approxMin v) (approxMax v) := by
    simp [mkApprox, min_eq_left hband, max_eq_right hband]
  have hbare : extractBudget (viewBare tok)
      = some (BudgetIntent.approx v (approxMin v) (approxMax v)) := by
    simp [extractBudget, viewBare, hp, hmk]
  have happrox : extractBudget (viewApprox tok)
      = some (BudgetIntent.approx v (approxMin v) (approxMax v)) := by
    simp [extractBudget, viewApprox, hp, hmk]
  have hunset : budgetUnsetOrNonpos d.budget_max = true := by
    unfold draftHasBudget at hb
    unfold budgetUnsetOrNonpos
    rcases hmax : d.budget_max with _ | b
    · rfl
    · rw [hmax] at hb
      simp only [decide_eq_false_iff_not, not_lt] at hb
      simp [hb]
  have hnotpos : budgetUnsetOrNonpos (some (approxMax v)) = false := by
    simp only [budgetUnsetOrNonpos, decide_eq_false_iff_not, not_le]
    exact hpos
  have hmerge : applyBudgetToDraft d (extractBudget (viewBare tok))
      = { d with budget_min := some (approxMin v), budget_max := some (approxMax v) } := by
    rw [hbare]
    unfold applyBudgetToDraft
    rw [hunset]
    simp only [extractBudgetRangeOfText, if_true]
    simp [hnotpos]
  have hc' : draftHasCountry { d with budget_min := some (approxMin v), budget_max := some (approxMax v) } = true := by
    simpa [draftHasCountry] using hc
  have hn' : draftHasNights { d with budget_min := some (approxMin v), budget_max := some (approxMax v) } = true := by
    simpa [draftHasNights] using hn
  have hb' : draftHasBudget { d with budget_min := some (approxMin v), budget_max := some (approxMax v) } = true := by
    simp [draftHasBudget, hpos]
  refine ⟨hbare, happrox, hband, ?_, ?_⟩
  · rw [hmerge]
    simp [getMissingFields, hc', hn', hb']
  · rw [hmerge]
    simp [nextAiAwaiting, hc', hn', hb']

/-- Witness for `bare_budget_approx_band_completes_draft`: bare `"120к"`
(value 120000) on a Turkey/7-nights draft gives the 108000–132000 band and
completes the draft. -/
theorem bare_budget_approx_band_witness :
    extractBudget (viewBare ⟨120, true⟩)
      = some (BudgetIntent.approx 120000 108000 132000) ∧
    getMissingFields (applyBudgetToDraft
      { country_id := some 47, nights_min := some 7, nights_max := some 7 }
      (extractBudget (viewBare ⟨120, true⟩))) = [] := by
  have h := bare_budget_approx_band_completes_draft ⟨120, true⟩ 120000
    { country_id := some 47, nights_min := some 7, nights_max := some 7 }
    (by decide) (by decide) (by decide) (by decide) (by decide)
  refine ⟨?_, h.2.2.2.1⟩
  have h1 := h.1
  rwa [show approxMin 120000 = 108000 from by decide,
       show approxMax 120000 = 132000 from by decide] at h1

/-- C5 counterexample.  The claim promises that a bare-number budget always
completes a country+nights draft, but for the bare number `40` the derived
band is `round100(36) = 0` to `round100(44) = 0`, the merged draft's
`budget_max` is `0`, and the budget slot is still reported missing (a
budget prompt is issued). -/
theorem bare_budget_small_value_incomplete :
    extractBudget (viewBare ⟨40, false⟩) = some (BudgetIntent.approx 40 0 0) ∧
    getMissingFields (applyBudgetToDraft
      { country_id := some 47, nights_min := some 7, nights_max := some 7 }
      (extractBudget (viewBare ⟨40, false⟩))) = [MissingField.budget] ∧
    nextAiAwaiting (applyBudgetToDraft
      { country_id := some 47, nights_min := some 7, nights_max := some 7 }
      (extractBudget (viewBare ⟨40, false⟩))) = some AwaitKind.budget := by
  decide

/-! ### C2: resolution of a pending ambiguous-budget clarification -/

/-- `за` directly followed (after optional whitespace) by a digit, at the
current position (for the regex `/(^|\s)за\s*\d/`). -/
def startsZaNum (s : List Char) : Bool :=
  match s with
  | 'з' :: 'а' :: rest => ((rest.dropWhile Char.isWhitespace).headD 'x').isDigit
  | _ => false

/-- `за\s*\d` occurring right after a whitespace character. -/
def zaNumAfterSpace : List Char → Bool
  | [] => false
  | c :: rest => (c.isWhitespace && startsZaNum rest) || zaNumAfterSpace rest

/-- The regex `/(^|\s)за\s*\d/` of the clarification branch. -/
def zaNumPhrase (t : List Char) : Bool := startsZaNum t || zaNumAfterSpace t

/-- `explicitTarget` of the `pendingBudgetClarification` branch (bot source):
`около` / `примерно` / `в районе` substrings or a `за <number>` phrase. -/
def clarifyExplicitTarget (t : List Char) : Bool :=
  containsTok t (strT "около") || containsTok t (strT "примерно") ||
  containsTok t (strT "в районе") || zaNumPhrase t

/-- The budget ceiling (`budget_max`) produced by resolving a pending budget
clarification (bot source, both the `followup` and the `ai` mode):
`parsedBudget = extractBudgetFromText(text) ?? pending.value`; a falsy
parse re-prompts (`none`); a target-style answer is scaled by `1.2`
(`Math.round(parsedBudget * 1.2)`), a max-style answer is kept as is. -/
def clarifyCeiling (t : List Char) (view : BudgetView) (pendingValue : Int) : Option Int :=
  let parsed := (extractBudgetMax view).getD pendingValue
  if parsed = 0 then none
  else some (if clarifyExplicitTarget t then jsRound (mulF (intF parsed) (fracF 12 10)) else parsed)

/-- `parseBudgetAnswer`'s result (bot source). -/
inductive BudgetAnswer where
  | noLimit
  | maxAns (value : Int)
  | target (value : Int)
  deriving DecidableEq, Repr

/-- `parseBudgetAnswer` (bot source), on the normalized (lowercased,
nbsp-replaced, trimmed) answer text and its budget-regex view: `без`+`лим`
means no limit, a leading `-` fails, a range answer is max-style at its
upper end, an approx answer is target-style at its stated value, and a max
answer is max-style. -/
def parseBudgetAnswer (t : List Char) (view : BudgetView) : Option BudgetAnswer :=
  if containsTok t (strT "без") && containsTok t (strT "лим") then some BudgetAnswer.noLimit
  else if t.headD ' ' = '-' then none
  else
    match extractBudget view with
    | none => none
    | some (BudgetIntent.range _ mx) => some (BudgetAnswer.maxAns mx)
    | some (BudgetIntent.approx v _ _) => some (BudgetAnswer.target v)
    | some (BudgetIntent.max m) => some (BudgetAnswer.maxAns m)

/-- `state.budgetMax` after the guided `budget_input` branch (bot source):
no limit clears the ceiling, a target-style answer stores
`Math.round(value * 1.2)`, a max-style answer stores the value. -/
def budgetInputCeiling (ans : BudgetAnswer) : Option Int :=
  match ans with
  | BudgetAnswer.noLimit => none
  | BudgetAnswer.target v => some (jsRound (mulF (intF v) (fracF 12 10)))
  | BudgetAnswer.maxAns v => some v

/-- C2 counterexample.  Resolving a pending clarification with the
target-style answer `"около 100000"` (X = 100000): the branch parses the
answer with `extractBudgetFromText`, which returns the approx band's upper
edge `round100(X·1.1) = 110000`, and stores `Math.round(110000·1.2) =
132000` — not `Math.round(X·1.2) = 120000` as the claim states. -/
theorem clarify_target_answer_not_x_times_1_2 :
    clarifyExplicitTarget (strT "около 100000") = true ∧
    clarifyCeiling (strT "около 100000") (viewApprox ⟨100000, false⟩) 100000
      = some 132000 ∧
    jsRound (mulF (intF 100000) (fracF 12 10)) = 120000 ∧
    (132000 : Int) ≠ 120000 := by
  decide

/-- C2 amended.  Resolving a pending budget clarification stores `P` for a
max-style answer and `Math.round(P·1.2)` for a target-style answer, where
`P` is the budget ceiling the extractor reads from the answer (the approx
band's upper edge `round100(X·1.1)` when the answer phrases `X`
approximately, `X` itself for `до X`, and the original pending value when
the answer carries no amount); the exact `Math.round(X·1.2)` of the claim
is applied to the stated value `X` only in the guided `budget_input` path,
via `parseBudgetAnswer`'s target kind.  The asymmetric `1.2` factor remains
distinct from the symmetric ±10 % band of standalone approx extraction. -/
theorem clarify_resolution_formula (t : List Char) (view : BudgetView) (pending P : Int)
    (hP : (extractBudgetMax view).getD pending = P) (hpos : 0 < P) :
    clarifyCeiling t view pending
      = some (if clarifyExplicitTarget t then jsRound (mulF (intF P) (fracF 12 10)) else P) ∧
    (clarifyExplicitTarget t = false → clarifyCeiling t view pending = some P) ∧
    (∀ X : Int, budgetInputCeiling (BudgetAnswer.target X)
      = some (jsRound (mulF (intF X) (fracF 12 10)))) ∧
    (∀ X : Int, budgetInputCeiling (BudgetAnswer.maxAns X) = some X) := by
  have hne : P ≠ 0 := by omega
  refine ⟨?_, ?_, fun _ => rfl, fun _ => rfl⟩
  · unfold clarifyCeiling
    rw [hP]
    simp [hne]
  · intro hmarker
    unfold clarifyCeiling
    rw [hP]
    simp [hne, hmarker]

/-- Witness for `clarify_resolution_formula`: the max-style answer
`"до 120000"` resolves the pending clarification to exactly `120000`. -/
theorem clarify_resolution_formula_witness :
    clarifyCeiling (strT "до 120000") { maxTok := some ⟨120000, false⟩ } 90000
      = some 120000 := by
  have h := clarify_resolution_formula (strT "до 120000") { maxTok := some ⟨120000, false⟩ }
    90000 120000 (by decide) (by decide)
  exact h.2.1 (by decide)

/-! ## Per-chat conversation state (bot source `ChatState`) -/

inductive MealCode where
  | AI | BB | HB | FB | RO | ANY
  deriving DecidableEq, Repr

inductive PeriodCode where
  | next_month | one_two_months | summer | autumn
  deriving DecidableEq, Repr

inductive ChatStep where
  | idle | budget_input | await_phone | ai_country_input | ai_nights_input | ai_budget_input
  deriving DecidableEq, Repr

inductive EditTarget where
  | budget | rating | period | meal
  deriving DecidableEq, Repr

inductive SortOrder where
  | price_asc | price_desc
  deriving DecidableEq, Repr

/-- A result item as the bot stores it (`Tour`). -/
structure BotTour where
  hotel_id : Int
  hotel_name : Option String := none
  country_name : Option String := none
  city_name : Option String := none
  flag_emoji : Option String := none
  date_from : Option String := none
  nights : Option Int := none
  meal : Option String := none
  rating : Option Frac := none
  room : Option String := none
  operator : Option String := none
  price : Option Frac := none
  currency : Option String := none
  image_url : Option String := none
  deriving DecidableEq, Repr

/-- `SearchToursInput` (schema source), after zod defaults. -/
structure SearchArgsE where
  country_id : Option Int := none
  departure_id : Int := 1
  date_from : String := "2026-06-01"
  date_to : String := "2026-06-20"
  nights_min : Int := 6
  nights_max : Int := 10
  adults : Int := 2
  children : Int := 0
  country_name : Option String := none
  destination : Option String := none
  city_name : Option String := none
  resort_name : Option String := none
  period : Option PeriodCode := none
  budget_min : Option Int := none
  budget_max : Int := 0
  meal : Sum String Int := Sum.inr 0
  rating : Sum String Int := Sum.inr 0
  limit : Int := 10
  offset : Int := 0
  sort : SortOrder := SortOrder.price_asc
  deriving DecidableEq, Repr

/-- `DEFAULT_SEARCH_TOURS_ARGS` (searchDefaults source). -/
def defaultSearchToursArgs : SearchArgsE :=
  { departure_id := 1, date_from := "2026-06-01", date_to := "2026-06-20",
    nights_min := 6, nights_max := 10, adults := 2, children := 0,
    budget_max := 0, meal := Sum.inr 0, rating := Sum.inr 0,
    limit := 5, offset := 0, sort := SortOrder.price_asc }

/-- `SearchContext` (bot source). -/
structure SearchCtx where
  countryId : Option Int := none
  countryName : Option String := none
  dateFrom : Option String := none
  dateTo : Option String := none
  period : Option PeriodCode := none
  nightsMin : Option Int := none
  nightsMax : Option Int := none
  budgetMax : Option Int := none
  budgetMin : Option Int := none
  budgetTarget : Option Int := none
  meal : Option MealCode := none
  ratingMin : Option Frac := none
  adults : Option Int := none
  children : Option Int := none
  lastArgs : Option SearchArgsE := none
  lastResults : Option (List BotTour) := none
  lastRequestId : Option String := none
  deriving DecidableEq, Repr

inductive ClarMode where
  | ai | followup
  deriving DecidableEq, Repr

inductive PromptAction where
  | show_favorites
  deriving DecidableEq, Repr

/-- `SavedSet` (favorites source), with the `paramsSnapshot` inlined and the
creation time as a timestamp. -/
structure SavedSet where
  id : String
  createdAt : Int
  country : String
  nights : Int
  budgetMin : Option Int := none
  budgetMax : Option Int := none
  meal : Option String := none
  tours : List BotTour
  deriving DecidableEq, Repr

/-- `FavoritesStore` (favorites source). -/
structure FavoritesStore where
  tours : List BotTour
  collections : List SavedSet
  deriving DecidableEq, Repr

/-- `createEmptyFavorites` (favorites source). -/
def createEmptyFavorites : FavoritesStore := ⟨[], []⟩

/-- `ChatState` (bot source).  JS `undefined` for optional fields is `none`;
the boolean flags that JS reads by truthiness are `Bool`. -/
structure ChatState where
  step : ChatStep
  countryId : Option Int := none
  nightsMin : Int
  nightsMax : Int
  budgetChosen : Bool
  budgetMax : Option Int := none
  budgetMin : Option Int := none
  ratingChosen : Bool
  ratingMin : Option Frac := none
  period : Option PeriodCode := none
  meal : MealCode
  mealChosen : Bool
  editingFilter : Option EditTarget := none
  offset : Int
  limit : Int
  lastRequestId : Option String := none
  lastResults : List BotTour
  pendingHotel : Option BotTour := none
  phonePromptShownForHotelId : Option Int := none
  aiMode : Bool := false
  aiDraft : Option SearchDraft := none
  aiAwaiting : Option AwaitKind := none
  lastSearchArgs : Option SearchArgsE := none
  activeSearchSeq : Option Nat := none
  searchContext : Option SearchCtx := none
  pendingBudgetClarification : Option (Int × ClarMode) := none
  pendingPromptAction : Option PromptAction := none
  favorites : FavoritesStore
  favoritesSeq : Nat
  deriving DecidableEq, Repr

/-- The state created by `getState` on first contact (bot source). -/
def getStateInitial : ChatState :=
  { step := ChatStep.idle,
    nightsMin := defaultSearchToursArgs.nights_min,
    nightsMax := defaultSearchToursArgs.nights_max,
    budgetChosen := false, ratingChosen := false, mealChosen := false,
    offset := 0, limit := defaultSearchToursArgs.limit,
    meal := MealCode.ANY, lastResults := [],
    favorites := createEmptyFavorites, favoritesSeq := 0 }

/-- `resetSearchState` (bot source), field by field; the final source
comment reads `favorites persist across new search/reset by design`. -/
def resetSearchState (s : ChatState) : ChatState :=
  { s with
    nightsMin := defaultSearchToursArgs.nights_min,
    nightsMax := defaultSearchToursArgs.nights_max,
    budgetChosen := false,
    budgetMax := none,
    budgetMin := none,
    ratingChosen := false,
    ratingMin := none,
    period := none,
    meal := MealCode.ANY,
    mealChosen := false,
    editingFilter := none,
    offset := defaultSearchToursArgs.offset,
    limit := defaultSearchToursArgs.limit,
    lastRequestId := none,
    lastResults := [],
    pendingHotel := none,
    phonePromptShownForHotelId := none,
    aiMode := false,
    aiDraft := none,
    aiAwaiting := none,
    lastSearchArgs := none,
    activeSearchSeq := none,
    searchContext := none,
    pendingBudgetClarification := none,
    pendingPromptAction := none }

/-- `collectFavoriteTours`'s dedup walk (first occurrence by hotel id wins). -/
def dedupeByHotelId : List BotTour → List Int → List BotTour
  | [], _ => []
  | t :: rest, seen =>
      if t.hotel_id ∈ seen then dedupeByHotelId rest seen
      else t :: dedupeByHotelId rest (t.hotel_id :: seen)

/-- `collectFavoriteTours` (bot source): individually saved tours first,
then collection tours, deduplicated by hotel id. -/
def collectFavoriteTours (s : ChatState) : List BotTour :=
  dedupeByHotelId (s.favorites.tours ++ (s.favorites.collections.map SavedSet.tours).flatten) []

/-- `findTourForWantAction` (bot source): current results first, then the
favorites (the `fav` source hint and the default fall back identically). -/
def findTourForWantAction (s : ChatState) (hotelId : Int) : Option BotTour :=
  match s.lastResults.find? (fun t => t.hotel_id = hotelId) with
  | some t => some t
  | none => (collectFavoriteTours s).find? (fun t => t.hotel_id = hotelId)

/-- Net state effect of `showFavorites` (bot source): `sendFavoriteCards`
sets `step`/`aiAwaiting`/`aiDraft`, while `lastRequestId`, `lastResults`,
`lastSearchArgs` and `searchContext` are saved and restored around it;
with no favorites nothing is touched. -/
def showFavoritesState (s : ChatState) : ChatState :=
  if collectFavoriteTours s = [] then s
  else { s with step := ChatStep.idle, aiAwaiting := none, aiDraft := some {} }

/-- `ParsedCommand` (nlu source). -/
inductive ParsedCommand where
  | SHOW_MORE | EDIT_FILTERS | NEW_SEARCH | COUNTRIES | START_SEARCH
  | FAVORITES | CLEAR_FAVORITES
  deriving DecidableEq, Repr

/-- Net state effect of the command branches of the text handler (bot
source): `SHOW_MORE` advances pagination (the re-run search is modelled
separately), `FAVORITES` shows the favorites, `CLEAR_FAVORITES` empties the
store, `NEW_SEARCH` resets and returns to idle, the rest only reply. -/
def handleCommandState (cmd : ParsedCommand) (s : ChatState) : ChatState :=
  match cmd with
  | ParsedCommand.SHOW_MORE =>
      if s.lastRequestId.isSome then { s with offset := s.offset + s.limit } else s
  | ParsedCommand.EDIT_FILTERS => s
  | ParsedCommand.FAVORITES => showFavoritesState { s with pendingPromptAction := none }
  | ParsedCommand.CLEAR_FAVORITES =>
      { s with pendingPromptAction := none, favorites := createEmptyFavorites }
  | ParsedCommand.NEW_SEARCH => { resetSearchState s with step := ChatStep.idle }
  | ParsedCommand.COUNTRIES => s
  | ParsedCommand.START_SEARCH => s

/-! ## Search sequence numbers (C3) -/

/-- `beginSearchSeq` (bot source): increment and capture. -/
def beginSearchSeq (s : ChatState) : ChatState × Nat :=
  let next := s.activeSearchSeq.getD 0 + 1
  ({ s with activeSearchSeq := some next }, next)

/-- `isSearchSeqStale` (bot source). -/
def isSearchSeqStale (s : ChatState) (seq : Nat) : Bool :=
  decide (s.activeSearchSeq.getD 0 ≠ seq)

/-- A search backend response as the bot consumes it. -/
structure SearchOutput where
  requestid : String
  results : List BotTour
  deriving DecidableEq, Repr

/-- Outbound messages relevant to the sequence-number property. -/
inductive BotMsg where
  | resultCards (requestid : String)
  deriving DecidableEq, Repr

/-- `COUNTRY_LABEL_BY_ID` (bot source). -/
def countryLabelById (id : Int) : Option String :=
  if id = 47 then some "Турция"
  else if id = 54 then some "Египет"
  else if id = 29 then some "Таиланд"
  else if id = 63 then some "ОАЭ"
  else if id = 90 then some "Мальдивы"
  else if id = 91 then some "Сейшелы"
  else none

/-- Uppercased meal string of the args cast to a `MealCode` (the source
casts blindly; unknown codes fall back to the state's meal here). -/
def mealCodeOfArgs (m : Sum String Int) (fallback : MealCode) : MealCode :=
  match m with
  | Sum.inl s =>
      if s = "AI" then MealCode.AI else if s = "BB" then MealCode.BB
      else if s = "HB" then MealCode.HB else if s = "FB" then MealCode.FB
      else if s = "RO" then MealCode.RO else if s = "ANY" then MealCode.ANY
      else fallback
  | Sum.inr _ => fallback

/-- `syncSearchContextFromState` (bot source), merging computed fields over
the previous context (`applySearchContext` keeps the previous value where
the patch is undefined). -/
def syncSearchContext (s : ChatState) : SearchCtx :=
  let baseArgs := s.lastSearchArgs
  let countryId := (baseArgs.bind SearchArgsE.country_id).orElse (fun _ => s.countryId)
  let prev := s.searchContext.getD {}
  { countryId := countryId.orElse (fun _ => prev.countryId),
    countryName := (countryId.bind countryLabelById).orElse (fun _ => prev.countryName),
    dateFrom := (baseArgs.map SearchArgsE.date_from).orElse (fun _ => prev.dateFrom),
    dateTo := (baseArgs.map SearchArgsE.date_to).orElse (fun _ => prev.dateTo),
    period := ((baseArgs.bind SearchArgsE.period).orElse (fun _ => s.period)).orElse
      (fun _ => prev.period),
    nightsMin := some ((baseArgs.map SearchArgsE.nights_min).getD s.nightsMin),
    nightsMax := some ((baseArgs.map SearchArgsE.nights_max).getD s.nightsMax),
    budgetMax := ((baseArgs.map SearchArgsE.budget_max).orElse (fun _ => s.budgetMax)).orElse
      (fun _ => prev.budgetMax),
    budgetMin := ((baseArgs.bind SearchArgsE.budget_min).orElse (fun _ => s.budgetMin)).orElse
      (fun _ => prev.budgetMin),
    budgetTarget := prev.budgetTarget,
    meal := some (match baseArgs with
      | some args => mealCodeOfArgs args.meal s.meal
      | none => s.meal),
    ratingMin := (match baseArgs with
      | some args => (match args.rating with
        | Sum.inr n => some (intF n)
        | Sum.inl _ => s.ratingMin)
      | none => s.ratingMin).orElse (fun _ => prev.ratingMin),
    adults := some ((baseArgs.map SearchArgsE.adults).getD defaultSearchToursArgs.adults),
    children := some ((baseArgs.map SearchArgsE.children).getD defaultSearchToursArgs.children),
    lastArgs := baseArgs.orElse (fun _ => prev.lastArgs),
    lastResults := some s.lastResults,
    lastRequestId := s.lastRequestId.orElse (fun _ => prev.lastRequestId) }

/-- State effect of `sendCards` (bot source): leave slot-filling, store the
new request id and results, refresh the search context. -/
def sendCardsState (s : ChatState) (out : SearchOutput) : ChatState :=
  let s1 := { s with step := ChatStep.idle, aiAwaiting := none, aiDraft := some {},
                     lastRequestId := some out.requestid, lastResults := out.results }
  { s1 with searchContext := some (syncSearchContext s1) }

/-- The arrival of a search result tagged with captured sequence number
`seq` (bot source, `runSearch` and the followup/orchestrated branches):
a stale result is dropped without messages or state changes, a current one
is rendered via `sendCards`. -/
def applySearchResult (s : ChatState) (seq : Nat) (out : SearchOutput) :
    ChatState × List BotMsg :=
  if isSearchSeqStale s seq then (s, [])
  else (sendCardsState s out, [BotMsg.resultCards out.requestid])

/-- C3.  Every search execution captures the per-conversation sequence
number incremented at its start (strictly above the previous value), and a
result whose captured number differs from the current one on arrival is
discarded: no message is sent and the conversation state — in particular
`lastResults`, `lastRequestId` and the search context — is left untouched. -/
theorem search_seq_capture_and_stale_discard (s sArr : ChatState) (seq : Nat)
    (out : SearchOutput) :
    ((beginSearchSeq s).2 = s.activeSearchSeq.getD 0 + 1 ∧
      (beginSearchSeq s).1.activeSearchSeq = some ((beginSearchSeq s).2) ∧
      s.activeSearchSeq.getD 0 < (beginSearchSeq s).2) ∧
    (isSearchSeqStale sArr seq = true ↔ sArr.activeSearchSeq.getD 0 ≠ seq) ∧
    (isSearchSeqStale sArr seq = true →
      applySearchResult sArr seq out = (sArr, []) ∧
      (applySearchResult sArr seq out).1.lastResults = sArr.lastResults ∧
      (applySearchResult sArr seq out).1.lastRequestId = sArr.lastRequestId ∧
      (applySearchResult sArr seq out).1.searchContext = sArr.searchContext) := by
  refine ⟨⟨rfl, rfl, by simp [beginSearchSeq]⟩, by simp [isSearchSeqStale], ?_⟩
  intro hstale
  unfold applySearchResult
  rw [hstale]
  simp

/-- Witness for `search_seq_capture_and_stale_discard`: a conversation at
sequence number 3 discards a result captured at sequence 5. -/
theorem search_seq_stale_discard_witness :
    applySearchResult { getStateInitial with activeSearchSeq := some 3 } 5
        ⟨"req-a", []⟩
      = ({ getStateInitial with activeSearchSeq := some 3 }, []) := by
  exact ((search_seq_capture_and_stale_discard getStateInitial
    { getStateInitial with activeSearchSeq := some 3 } 5 ⟨"req-a", []⟩).2.2
    (by decide)).1

/-! ## C7: dedupe of rapid identical "select this result" actions -/

/-- Replies of the `want:` action handler relevant to the dedupe claim. -/
inductive WantReply where
  | alreadyChecking
  | tourNotFound
  | phoneHintRepeat
  | startBooking
  deriving DecidableEq, Repr

/-- The dedupe key: user, originating result set, item, source hint
(bot source: `${userId}:${requestid}:${hotelId}:${sourceHint ?? "default"}`). -/
def wantKey (userId : Int) (requestid : String) (hotelId : Int)
    (sourceHint : Option String) : String :=
  toString userId ++ ":" ++ requestid ++ ":" ++ toString hotelId ++ ":" ++
    sourceHint.getD "default"

/-- `pendingWantByKey`: key to start-timestamp (ms). -/
def PendMap : Type := List (String × Int)

def lookupPend (m : PendMap) (k : String) : Option Int :=
  ((m : List (String × Int)).find? (fun p => p.1 = k)).map Prod.snd

def erasePend (m : PendMap) (k : String) : PendMap :=
  (m : List (String × Int)).filter (fun p => ¬ p.1 = k)

def setPend (m : PendMap) (k : String) (v : Int) : PendMap :=
  ((k, v) :: (erasePend m k : List (String × Int)) : List (String × Int))

/-- `isSamePendingHotel` together with the phone-prompt-shown check of the
`want:` handler (bot source). -/
def samePendingAndPrompted (s : ChatState) (hotelId : Int) : Bool :=
  (s.step = ChatStep.await_phone) &&
  ((s.pendingHotel.map BotTour.hotel_id) = some hotelId) &&
  (s.phonePromptShownForHotelId = some hotelId)

/-- The `want:` action handler (bot source): an identical action still
pending within 45 s is acknowledged with "already checking" and changes
nothing; otherwise the pending key is recorded, the tour looked up (a miss
releases the key), a repeat on the already-pinned hotel only re-sends the
phone hint, and the normal path pins the selection and starts the booking
flow (one phone prompt).  The 60 s `setTimeout` cleanup only removes the
key later and is not part of this step.  JS truthiness of the stored
timestamp is the `≠ 0` guard. -/
def wantProceed (s : ChatState) (pend : PendMap) (userId : Int) (requestid : String)
    (hotelId : Int) (sourceHint : Option String) (now : Int) :
    ChatState × PendMap × WantReply :=
  match findTourForWantAction s hotelId with
  | none =>
      (s, erasePend (setPend pend (wantKey userId requestid hotelId sourceHint) now)
        (wantKey userId requestid hotelId sourceHint), WantReply.tourNotFound)
  | some selected =>
      if samePendingAndPrompted s hotelId then
        (s, erasePend (setPend pend (wantKey userId requestid hotelId sourceHint) now)
          (wantKey userId requestid hotelId sourceHint), WantReply.phoneHintRepeat)
      else
        ({ s with pendingHotel := some selected, step := ChatStep.await_phone,
                  phonePromptShownForHotelId := some hotelId },
         setPend pend (wantKey userId requestid hotelId sourceHint) now,
         WantReply.startBooking)

def wantAction (s : ChatState) (pend : PendMap) (userId : Int) (requestid : String)
    (hotelId : Int) (sourceHint : Option String) (now : Int) :
    ChatState × PendMap × WantReply :=
  match lookupPend pend (wantKey userId requestid hotelId sourceHint) with
  | some pendingAt =>
      if pendingAt ≠ 0 ∧ now - pendingAt < 45000 then (s, pend, WantReply.alreadyChecking)
      else wantProceed s pend userId requestid hotelId sourceHint now
  | none => wantProceed s pend userId requestid hotelId sourceHint now

theorem lookupPend_setPend (m : PendMap) (k : String) (v : Int) :
    lookupPend (setPend m k v) k = some v := by
  simp [lookupPend, setPend, List.find?]

/-- C7.  Two identical "select this result" actions from the same user on
the same item of the same result set, the second within 45 s of the first,
start exactly one booking flow: the first pins the selection and prompts
for a phone number, the second only produces the "already checking"
acknowledgement and leaves both the conversation state (in particular the
pinned selection) and the pending-key map unchanged. -/
theorem want_double_tap_single_booking (s : ChatState) (pend : PendMap)
    (u : Int) (rid : String) (h : Int) (src : Option String) (t0 t1 : Int)
    (tour : BotTour)
    (hfree : lookupPend pend (wantKey u rid h src) = none)
    (hfind : findTourForWantAction s h = some tour)
    (hnotsame : samePendingAndPrompted s h = false)
    (ht0 : t0 ≠ 0)
    (hwin : t1 - t0 < 45000) :
    (wantAction s pend u rid h src t0).2.2 = WantReply.startBooking ∧
    (wantAction s pend u rid h src t0).1.pendingHotel = some tour ∧
    (wantAction s pend u rid h src t0).1.step = ChatStep.await_phone ∧
    (wantAction (wantAction s pend u rid h src t0).1
        (wantAction s pend u rid h src t0).2.1 u rid h src t1).2.2
      = WantReply.alreadyChecking ∧
    (wantAction (wantAction s pend u rid h src t0).1
        (wantAction s pend u rid h src t0).2.1 u rid h src t1).1
      = (wantAction s pend u rid h src t0).1 ∧
    (wantAction (wantAction s pend u rid h src t0).1
        (wantAction s pend u rid h src t0).2.1 u rid h src t1).2.1
      = (wantAction s pend u rid h src t0).2.1 := by
  have hfirst : wantAction s pend u rid h src t0
      = ({ s with pendingHotel := some tour, step := ChatStep.await_phone,
                  phonePromptShownForHotelId := some h },
         setPend pend (wantKey u rid h src) t0, WantReply.startBooking) := by
    unfold wantAction wantProceed
    rw [hfree]
    simp [hfind, hnotsame]
  have hsecond : wantAction
      { s with pendingHotel := some tour, step := ChatStep.await_phone,
               phonePromptShownForHotelId := some h }
      (setPend pend (wantKey u rid h src) t0) u rid h src t1
      = ({ s with pendingHotel := some tour, step := ChatStep.await_phone,
                  phonePromptShownForHotelId := some h },
         setPend pend (wantKey u rid h src) t0, WantReply.alreadyChecking) := by
    unfold wantAction
    rw [lookupPend_setPend]
    simp [ht0, hwin]
  simp only [hfirst]
  rw [hsecond]
  simp

/-- Concrete state for the dedupe witness: one result shown. -/
def wantTour0 : BotTour := { hotel_id := 1001 }

def wantState0 : ChatState := { getStateInitial with lastResults := [wantTour0] }

/-- Witness for `want_double_tap_single_booking`: taps at 1000 ms and
30000 ms on hotel 1001 of request `"r1"`. -/
theorem want_double_tap_single_booking_witness :
    (wantAction wantState0 ([] : PendMap) 7 "r1" 1001 none 1000).2.2
      = WantReply.startBooking ∧
    (wantAction (wantAction wantState0 ([] : PendMap) 7 "r1" 1001 none 1000).1
        (wantAction wantState0 ([] : PendMap) 7 "r1" 1001 none 1000).2.1
        7 "r1" 1001 none 30000).2.2
      = WantReply.alreadyChecking := by
  have h := want_double_tap_single_booking wantState0 ([] : PendMap) 7 "r1" 1001 none
    1000 30000 wantTour0 (by decide)
    (by simp [findTourForWantAction, wantState0, wantTour0, getStateInitial, List.find?])
    (by decide) (by decide) (by decide)
  exact ⟨h.1, h.2.2.2.1⟩

/-! ## C8: reset clears search state, preserves favorites -/

/-- C8.  An explicit reset ("new search") clears the active slot-filling
draft, the pinned pending selection, the pending budget clarification, the
pagination offset and the cached result list (together with the last
request id, the last search args and the search context), but leaves the
favorites store and its id counter unchanged; among the text commands, all
but the explicit `CLEAR_FAVORITES` leave the favorites store unchanged. -/
theorem reset_clears_search_preserves_favorites (s : ChatState) (cmd : ParsedCommand)
    (hcmd : cmd ≠ ParsedCommand.CLEAR_FAVORITES) :
    (resetSearchState s).favorites = s.favorites ∧
    (resetSearchState s).favoritesSeq = s.favoritesSeq ∧
    (resetSearchState s).aiDraft = none ∧
    (resetSearchState s).aiMode = false ∧
    (resetSearchState s).aiAwaiting = none ∧
    (resetSearchState s).pendingHotel = none ∧
    (resetSearchState s).pendingBudgetClarification = none ∧
    (resetSearchState s).offset = 0 ∧
    (resetSearchState s).lastResults = [] ∧
    (resetSearchState s).lastRequestId = none ∧
    (resetSearchState s).lastSearchArgs = none ∧
    (resetSearchState s).searchContext = none ∧
    (handleCommandState ParsedCommand.NEW_SEARCH s).favorites = s.favorites ∧
    (handleCommandState ParsedCommand.NEW_SEARCH s).step = ChatStep.idle ∧
    (handleCommandState cmd s).favorites = s.favorites := by
  refine ⟨rfl, rfl, rfl, rfl, rfl, rfl, rfl, rfl, rfl, rfl, rfl, rfl, rfl, rfl, ?_⟩
  cases cmd with
  | SHOW_MORE =>
      simp only [handleCommandState]
      split <;> rfl
  | EDIT_FILTERS => rfl
  | NEW_SEARCH => rfl
  | COUNTRIES => rfl
  | START_SEARCH => rfl
  | FAVORITES =>
      simp only [handleCommandState, showFavoritesState]
      split <;> rfl
  | CLEAR_FAVORITES => exact absurd rfl hcmd

/-- Witness for `reset_clears_search_preserves_favorites`: a state with one
saved favorite tour keeps it across a `NEW_SEARCH` reset. -/
theorem reset_preserves_favorites_witness :
    (resetSearchState { getStateInitial with
        favorites := ⟨[wantTour0], []⟩, pendingHotel := some wantTour0,
        offset := 10, lastResults := [wantTour0] }).favorites
      = ({ getStateInitial with
        favorites := ⟨[wantTour0], []⟩, pendingHotel := some wantTour0,
        offset := 10, lastResults := [wantTour0] } : ChatState).favorites := by
  exact (reset_clears_search_preserves_favorites { getStateInitial with
    favorites := ⟨[wantTour0], []⟩, pendingHotel := some wantTour0,
    offset := 10, lastResults := [wantTour0] } ParsedCommand.NEW_SEARCH
    (by decide)).1

/-! ## The synthetic search backend (`mockSearchTours`)

Conventions of this embedding:
* Dates are days since the Unix epoch; `Frac`-valued because the wall clock
  (used as a parse fallback and for relative periods) may fall mid-day.
  The ISO rendering `toIsoDate` is a bijective presentation of the day
  number and is left as the number itself.
* The cryptographic hashes (`sha256`, `sha1`) and the filesystem image pool
  are external collaborators, passed in as the `MockEnv` parameter; every
  theorem below holds for all choices of them.
* Input fields hold the already-coerced numbers (`toFiniteNumber` of a
  string is its parsed number, performed upstream of this model). -/

/-- ASCII lowercase (the strings compared by the mock are ASCII). -/
def asciiLowerChar (c : Char) : Char :=
  if 'A' ≤ c ∧ c ≤ 'Z' then Char.ofNat (c.toNat + 32) else c

def asciiLower (s : String) : String := ⟨s.toList.map asciiLowerChar⟩

/-- ASCII uppercase. -/
def asciiUpperChar (c : Char) : Char :=
  if 'a' ≤ c ∧ c ≤ 'z' then Char.ofNat (c.toNat - 32) else c

def asciiUpper (s : String) : String := ⟨s.toList.map asciiUpperChar⟩

def trimString (s : String) : String := ⟨trimText s.toList⟩

/-- A `TourResult` (types source), with the mock's `raw` payload split into
its fields. -/
structure TourResult where
  price : Frac
  currency : String
  date_from : Frac
  nights : Int
  operator : String
  hotel_id : Int
  hotel_name : String
  stars : Int
  rating : Option Frac
  meal : String
  room : String
  country_name : String
  city_name : String
  flag_emoji : String
  image_url : Option String
  raw_provider : String
  raw_seed : String
  raw_debug : Option (SortOrder × Int × Int)
  deriving DecidableEq, Repr

/-- `MockInput` (mock source): every field optional and number-valued
fields already coerced. -/
structure MockInput where
  seed : Option String := none
  sort : Option String := none
  limit : Option Frac := none
  offset : Option Frac := none
  period : Option String := none
  country_id : Option Frac := none
  country_name : Option String := none
  destination : Option String := none
  city_name : Option String := none
  resort_name : Option String := none
  departure_id : Option Frac := none
  date_from : Option String := none
  date_to : Option String := none
  nights_min : Option Frac := none
  nights_max : Option Frac := none
  adults : Option Frac := none
  children : Option Frac := none
  budget_max : Option Frac := none
  budget_min : Option Frac := none
  rating : Option Frac := none
  meal : Option (Sum String Frac) := none

/-! ### Dates -/

def digitVal (c : Char) : Int := (c.toNat : Int) - 48

/-- The shape check `/^\d{4}-\d{2}-\d{2}$/` plus digit extraction. -/
def parseIsoShape (s : String) : Option (Int × Int × Int) :=
  match s.toList with
  | [y1, y2, y3, y4, h1, m1, m2, h2, d1, d2] =>
      if y1.isDigit && y2.isDigit && y3.isDigit && y4.isDigit &&
         h1 = '-' && m1.isDigit && m2.isDigit && h2 = '-' &&
         d1.isDigit && d2.isDigit then
        some (1000 * digitVal y1 + 100 * digitVal y2 + 10 * digitVal y3 + digitVal y4,
              10 * digitVal m1 + digitVal m2,
              10 * digitVal d1 + digitVal d2)
      else none
  | _ => none

def isLeapYear (y : Int) : Bool :=
  (y % 4 = 0 && y % 100 ≠ 0) || y % 400 = 0

def daysInMonth (y m : Int) : Int :=
  if m = 2 then (if isLeapYear y then 29 else 28)
  else if m = 4 ∨ m = 6 ∨ m = 9 ∨ m = 11 then 30
  else 31

/-- Days since 1970-01-01 of a civil date (standard civil-from-days
inverse; years of interest are ≥ 2000, where truncating and flooring
division agree). -/
def daysFromCivil (y m d : Int) : Int :=
  let y1 := if m ≤ 2 then y - 1 else y
  let era := (if 0 ≤ y1 then y1 else y1 - 399) / 400
  let yoe := y1 - era * 400
  let doy := (153 * (m + (if 2 < m then -3 else 9)) + 2) / 5 + d - 1
  let doe := yoe * 365 + yoe / 4 - yoe / 100 + doy
  era * 146097 + doe - 719468

/-- `normalizeDate` followed by `new Date(...)` validity (the source keeps
a string only if it matches the shape and denotes a real calendar day). -/
def dateToDay (v : Option String) : Option Int :=
  v.bind fun s =>
    match parseIsoShape s with
    | some (y, m, d) =>
        if 1 ≤ m ∧ m ≤ 12 ∧ 1 ≤ d ∧ d ≤ daysInMonth y m then
          some (daysFromCivil y m d)
        else none
    | none => none

/-- `parseDateSafe` (mock source). -/
def parseDateSafe (v : Option String) (fallback : Frac) : Frac :=
  match dateToDay v with
  | some d => intF d
  | none => fallback

/-! ### Input normalizers -/

/-- `normalizeText` (mock source). -/
def normalizeTextO (v : Option String) : Option String :=
  v.bind fun s => if trimString s = "" then none else some (trimString s)

/-- `normalizePeriod` (mock source). -/
def normalizePeriod (p : Option String) : Option PeriodCode :=
  match normalizeTextO p with
  | some s =>
      if s = "next_month" then some PeriodCode.next_month
      else if s = "1_2_months" then some PeriodCode.one_two_months
      else if s = "summer" then some PeriodCode.summer
      else if s = "autumn" then some PeriodCode.autumn
      else none
  | none => none

/-- `normalizeSort` (mock source). -/
def normalizeSort (s : Option String) : SortOrder :=
  if s = some "price_desc" then SortOrder.price_desc else SortOrder.price_asc

/-- `normalizeLimit` (mock source): default 10, cap at 20. -/
def normalizeLimit (l : Option Frac) : Int :=
  match l with
  | none => 10
  | some q => if lebF q (intF 0) then 10 else min 20 (floorF q)

/-- `normalizeOffset` (mock source). -/
def normalizeOffset (o : Option Frac) : Int :=
  match o with
  | none => 0
  | some q => if ltbF q (intF 0) then 0 else floorF q

def mealCodesList : List String := ["RO", "BB", "HB", "FB", "AI"]

/-- Whether a fraction denotes an integer (`Number.isInteger`). -/
def isIntF (q : Frac) : Bool := decide (q.num % q.den = 0)

/-- `normalizeMealFilter` (mock source): a string is uppercased (empty or
`"0"` means no filter; an unknown code is returned as is), a number in 1–5
indexes `MEAL_CODES`. -/
def normalizeMealFilter (m : Option (Sum String Frac)) : Option String :=
  match m with
  | none => none
  | some (Sum.inl s) =>
      let normalized := asciiUpper (trimString s)
      if normalized = "" ∨ normalized = "0" then none else some normalized
  | some (Sum.inr q) =>
      if lebF q (intF 0) then none
      else if isIntF q ∧ 1 ≤ floorF q ∧ floorF q ≤ 5 then
        some (mealCodesList.getD (floorF q - 1).toNat "")
      else none

/-! ### Destinations -/

structure Destination where
  id : Int
  name : String
  slug : String
  flag : String
  resorts : List String
  priceFactor : Frac
  deriving DecidableEq, Repr

def dTurkey : Destination :=
  ⟨47, "Turkey", "turkey", "🇹🇷", ["Antalya", "Kemer", "Belek", "Alanya", "Side"], fracF 1 1⟩
def dEgypt : Destination :=
  ⟨54, "Egypt", "egypt", "🇪🇬", ["Hurghada", "Sharm El Sheikh", "Marsa Alam"], fracF 92 100⟩
def dThailand : Destination :=
  ⟨29, "Thailand", "thailand", "🇹🇭", ["Phuket", "Krabi", "Khao Lak", "Pattaya", "Samui"], fracF 108 100⟩
def dUAE : Destination :=
  ⟨63, "UAE", "uae", "🇦🇪", ["Dubai", "Abu Dhabi", "Ras Al Khaimah"], fracF 125 100⟩
def dMaldives : Destination :=
  ⟨90, "Maldives", "maldives", "🇲🇻", ["North Malé Atoll", "South Malé Atoll", "Ari Atoll", "Baa Atoll"], fracF 135 100⟩
def dSeychelles : Destination :=
  ⟨91, "Seychelles", "seychelles", "🇸🇨", ["Mahé", "Praslin", "La Digue"], fracF 132 100⟩

def destinationsList : List Destination :=
  [dTurkey, dEgypt, dThailand, dUAE, dMaldives, dSeychelles]

def mockCountryAliases : List (String × String) :=
  [("turkey", "Turkey"), ("turkiye", "Turkey"), ("egypt", "Egypt"),
   ("thailand", "Thailand"), ("uae", "UAE"), ("united arab emirates", "UAE"),
   ("emirates", "UAE"), ("maldives", "Maldives"), ("seychelles", "Seychelles")]

/-- `resolveDestinationByText` (mock source). -/
def resolveDestinationByText (text : Option String) : Option Destination :=
  match text with
  | none => none
  | some t =>
      let token := asciiLower (trimString t)
      let aliasHit := (mockCountryAliases.find? (fun p => p.1 = token)).map Prod.snd
      let targetName := aliasHit.getD (trimString t)
      destinationsList.find? (fun d => asciiLower d.name = asciiLower targetName)

/-- `resolveDestination` (mock source): id, then country name, then
destination text, then Turkey. -/
def resolveDestination (input : MockInput) : Destination :=
  let byText :=
    ((resolveDestinationByText (normalizeTextO input.country_name)).orElse
      (fun _ => resolveDestinationByText (normalizeTextO input.destination))).getD dTurkey
  match input.country_id with
  | some q =>
      match destinationsList.find? (fun d => d.id = floorF q) with
      | some d => d
      | none => byText
  | none => byText

/-- `resolvePeriodDates` (mock source): summer/autumn are fixed 2026
windows; the relative periods start at the current UTC day. -/
def resolvePeriodDates (p : Option PeriodCode) (dateFrom dateTo : Frac) (now : Frac) :
    Frac × Frac :=
  match p with
  | none => (dateFrom, dateTo)
  | some PeriodCode.summer => (intF (daysFromCivil 2026 6 1), intF (daysFromCivil 2026 8 31))
  | some PeriodCode.autumn => (intF (daysFromCivil 2026 9 1), intF (daysFromCivil 2026 11 30))
  | some PeriodCode.next_month => (intF (floorF now), intF (floorF now + 30))
  | some PeriodCode.one_two_months => (intF (floorF now), intF (floorF now + 60))

/-! ### Seed derivation and the xorshift RNG -/

/-- The normalized payload JSON-serialized and hashed by
`makeSeedFromInput`; the serialization+SHA-256 composite is the
environment's `seedHash`. -/
structure SeedPayload where
  date_from : String
  date_to : String
  country_id : Frac
  country_name : String
  destination : String
  period : String
  departure_id : Frac
  adults : Frac
  children : Frac
  nights_min : Frac
  nights_max : Frac
  budget_max : Frac
  budget_min : Frac
  rating : Frac
  meal : Sum String Frac

/-- The external collaborators of the mock backend: hash functions and the
filesystem image pool (`getImagePool` with its cache). -/
structure MockEnv where
  seedHash : SeedPayload → String
  digest32 : String → Nat
  sha1Int : String → Nat
  sha1Hex : String → String
  imagePool : String → List String
  mockDebug : Bool

/-- The date kept for the seed payload (`normalizeDate`: shape only). -/
def normalizeDateShape (v : Option String) : Option String :=
  v.bind fun s => match parseIsoShape s with
    | some _ => some s
    | none => none

/-- The payload of `makeSeedFromInput` (mock source). -/
def mkSeedPayload (input : MockInput) : SeedPayload :=
  { date_from := (normalizeDateShape input.date_from).getD "",
    date_to := (normalizeDateShape input.date_to).getD "",
    country_id := input.country_id.getD (intF 0),
    country_name := (normalizeTextO input.country_name).getD "",
    destination := (normalizeTextO input.destination).getD "",
    period := (normalizeTextO input.period).getD "",
    departure_id := input.departure_id.getD (intF 0),
    adults := input.adults.getD (intF 0),
    children := input.children.getD (intF 0),
    nights_min := input.nights_min.getD (intF 0),
    nights_max := input.nights_max.getD (intF 0),
    budget_max := input.budget_max.getD (intF 0),
    budget_min := input.budget_min.getD (intF 0),
    rating := input.rating.getD (intF 0),
    meal := match input.meal with
      | some (Sum.inl s) => Sum.inl (asciiUpper s)
      | some (Sum.inr q) => Sum.inr q
      | none => Sum.inr (intF 0) }

/-- `makeSeedFromInput` (mock source): an explicit non-blank seed wins,
otherwise the hash of the normalized input payload. -/
def makeSeedFromInput (env : MockEnv) (input : MockInput) : String :=
  match input.seed with
  | some s => if trimString s ≠ "" then s else env.seedHash (mkSeedPayload input)
  | none => env.seedHash (mkSeedPayload input)

/-- One step of the 32-bit xorshift (`makeRng`'s closure); the state is the
unsigned 32-bit pattern. -/
def rngStep (s : Nat) : Nat :=
  let s1 := s ^^^ ((s <<< 13) % 4294967296)
  let s2 := s1 ^^^ (s1 >>> 17)
  s2 ^^^ ((s2 <<< 5) % 4294967296)

/-- `rng()`: advance, then `(state >>> 0) / 0xffffffff`. -/
def rand (s : Nat) : Frac × Nat :=
  let s1 := rngStep s
  (fracF (s1 : Int) 4294967295, s1)

/-- `makeRng` seeding: first 4 LE bytes of the SHA-256 digest, `|| 1`. -/
def rngInit (env : MockEnv) (seed : String) : Nat :=
  let h := env.digest32 seed % 4294967296
  if h = 0 then 1 else h

/-- `randomInt` (mock source). -/
def randomInt (s : Nat) (lo hi : Int) : Int × Nat :=
  let r := rand s
  (floorF (mulF r.1 (intF (hi - lo + 1))) + lo, r.2)

/-- `pick` (mock source), for string tables. -/
def pickD (s : Nat) (xs : List String) (dflt : String) : String × Nat :=
  let r := randomInt s 0 ((xs.length : Int) - 1)
  (xs.getD r.1.toNat dflt, r.2)

/-- `clamp` (mock source): `Math.max(min, Math.min(max, n))`. -/
def clampF (x lo hi : Frac) : Frac := maxF lo (minF hi x)

/-- `resolveEffectiveNightsRange` (mock source): clamp both bounds to
1–30 (defaults 6 and 10), swap when inverted, floor. -/
def resolveEffectiveNightsRange (input : MockInput) : Int × Int :=
  let mn := clampF (input.nights_min.getD (intF 6)) (intF 1) (intF 30)
  let mx := clampF (input.nights_max.getD (intF 10)) (intF 1) (intF 30)
  if ltbF mx mn then (floorF mx, floorF mn) else (floorF mn, floorF mx)

/-! ### Market generation (`buildTours`) -/

def hotelBrandsList : List String :=
  ["Asteria", "Blue Horizon", "Coral Elite", "Royal Palm", "Sunwave",
   "Marina Crown", "Vista Mare", "Grand Azure", "Luna Coast", "Sea Breeze",
   "Crystal Bay", "Imperial Sands"]

def operatorsList : List String :=
  ["TUI", "Coral", "Anex", "Pegas", "Tez Tour", "Biblio Globus", "Fun&Sun"]

def roomsList : List String :=
  ["Standard", "Superior", "Deluxe", "Family Room", "Junior Suite", "Suite"]

/-- Negation of a fraction. -/
def negF (q : Frac) : Frac := ⟨-q.num, q.den⟩

/-- Truncation towards zero (JS number-to-int in `%`). -/
def truncF (q : Frac) : Int :=
  if lebF (intF 0) q then floorF q else -(floorF (negF q))

/-- JS `%` of a number by a positive integer constant. -/
def jsModF (x : Frac) (n : Int) : Frac :=
  subF x (intF (truncF (divNF x n) * n))

/-- `roundPrice` (mock source): `Math.round(value / step) * step`. -/
def roundPrice (v : Frac) (step : Int) : Int := jsRound (divNF v step) * step

/-- `maybeMissingRating` (mock source): 6 % of ratings are dropped. -/
def maybeMissingRating (s : Nat) (rating : Frac) : Option Frac × Nat :=
  let r := rand s
  (if ltbF r.1 (fracF 6 100) then none else some rating, r.2)

/-- `makeHotelName` (mock source). -/
def makeHotelName (s : Nat) (city : String) : String × Nat :=
  let b := pickD s hotelBrandsList ""
  let r := rand b.2
  (if ltbF r.1 (fracF 65 100) then b.1 ++ " Resort " ++ city else b.1 ++ " " ++ city, r.2)

/-- One iteration of the `buildTours` loop (mock source), threading the RNG
state in the source's draw order. -/
def buildTourAt (dest : Destination) (fromDate : Frac) (rangeDays nLo nHi : Int)
    (occupancyFactor departureFactor : Frac) (seed : String) (i : Nat) (s0 : Nat) :
    TourResult × Nat :=
  let r1 := rand s0
  let starRoll := r1.1
  let stars : Int := if ltbF starRoll (fracF 3 10) then 3
    else if ltbF starRoll (fracF 72 100) then 4 else 5
  let r2 := randomInt r1.2 nLo nHi
  let nights : Int := if i = 4 then max nLo (min nHi 8) else r2.1
  let r3 := if 0 < rangeDays then randomInt r2.2 0 rangeDays else randomInt r2.2 0 21
  let dateFrom := addF fromDate (intF r3.1)
  let r4 := rand r3.2
  let mealRoll := r4.1
  let meal := if i < mealCodesList.length then mealCodesList.getD i ""
    else if ltbF mealRoll (fracF 14 100) then "RO"
    else if ltbF mealRoll (fracF 34 100) then "BB"
    else if ltbF mealRoll (fracF 62 100) then "HB"
    else if ltbF mealRoll (fracF 82 100) then "FB"
    else "AI"
  let r5 := pickD r4.2 operatorsList ""
  let operatorName := r5.1
  let r6 := pickD r5.2 roomsList ""
  let room := r6.1
  let r7 := pickD r6.2 dest.resorts ""
  let cityName := r7.1
  let r8 := rand r7.2
  let baseRating :=
    if stars = 5 then addF (fracF 425 100) (mulF r8.1 (fracF 75 100))
    else if stars = 4 then addF (fracF 375 100) (mulF r8.1 (fracF 9 10))
    else addF (fracF 3 1) (mulF r8.1 (fracF 115 100))
  let rating := divNF (intF (jsRound (mulF (clampF baseRating (fracF 3 1) (fracF 5 1)) (intF 10)))) 10
  let mealFactor := if meal = "AI" then fracF 12 10 else if meal = "FB" then fracF 112 100
    else if meal = "HB" then fracF 107 100 else if meal = "BB" then fracF 103 100
    else fracF 98 100
  let starFactor := if stars = 5 then fracF 15 10 else if stars = 4 then fracF 12 10
    else fracF 95 100
  let r9 := if operatorName = "TUI" ∨ operatorName = "Tez Tour" then (fracF 106 100, r8.2)
    else
      let rr := rand r8.2
      (addF (fracF 97 100) (mulF rr.1 (fracF 1 10)), rr.2)
  let operatorFactor := r9.1
  let r10 := rand r9.2
  let noise := addF (fracF 9 10) (mulF r10.1 (fracF 22 100))
  let grossPrice :=
    mulF (mulF (mulF (mulF (mulF (mulF (mulF (mulF (intF 42000) starFactor) mealFactor)
      (addF (fracF 84 100) (mulF (intF nights) (fracF 75 1000)))) occupancyFactor)
      dest.priceFactor) departureFactor) operatorFactor) noise
  let r11 := rand r10.2
  let priceStep : Int := if ltbF r11.1 (fracF 2 10) then 10 else 100
  let price := intF (roundPrice grossPrice priceStep)
  let hotelId : Int := 1000 + (i : Int)
  let r12 := makeHotelName r11.2 cityName
  let r13 := maybeMissingRating r12.2 rating
  ({ price := price, currency := "RUB", date_from := dateFrom, nights := nights,
     operator := operatorName, hotel_id := hotelId, hotel_name := r12.1,
     stars := stars, rating := r13.1, meal := meal, room := room,
     country_name := dest.name, city_name := cityName, flag_emoji := dest.flag,
     image_url := none, raw_provider := "mock", raw_seed := seed,
     raw_debug := none }, r13.2)

/-- The `for i in 0..marketSize` loop of `buildTours`. -/
def buildToursGo (dest : Destination) (fromDate : Frac) (rangeDays nLo nHi : Int)
    (occupancyFactor departureFactor : Frac) (seed : String) :
    Nat → Nat → Nat → List TourResult
  | 0, _, _ => []
  | k + 1, i, s =>
      let r := buildTourAt dest fromDate rangeDays nLo nHi occupancyFactor
        departureFactor seed i s
      r.1 :: buildToursGo dest fromDate rangeDays nLo nHi occupancyFactor
        departureFactor seed k (i + 1) r.2

/-- `buildTours` (mock source). -/
def buildTours (env : MockEnv) (input : MockInput) (seed : String) (now : Frac) :
    List TourResult :=
  let s0 := rngInit env (seed ++ ":market")
  let ms := randomInt s0 60 100
  let dest := resolveDestination input
  let parsedFromDate := parseDateSafe input.date_from now
  let parsedToDate := parseDateSafe input.date_to (addF parsedFromDate (intF 30))
  let window := resolvePeriodDates (normalizePeriod input.period) parsedFromDate parsedToDate now
  let rangeDays := max 0 (floorF (subF window.2 window.1))
  let nr := resolveEffectiveNightsRange input
  let adults := clampF (input.adults.getD (intF 2)) (intF 1) (intF 6)
  let children := clampF (input.children.getD (intF 0)) (intF 0) (intF 4)
  let occupancyFactor :=
    addF (intF 1) (addF (mulF adults (fracF 18 100)) (mulF children (fracF 9 100)))
  let departureFactor :=
    addF (fracF 9 10) (mulF (jsModF (input.departure_id.getD (intF 0)) 5) (fracF 4 100))
  buildToursGo dest window.1 rangeDays nr.1 nr.2 occupancyFactor departureFactor seed
    ms.1.toNat 0 ms.2

/-! ### Sorting (JS `Array.prototype.sort` is stable; a stable insertion
sort produces the same ordering for a total comparator) -/

def insertSorted (le : TourResult → TourResult → Bool) (a : TourResult) :
    List TourResult → List TourResult
  | [] => [a]
  | b :: bs => if le a b then a :: b :: bs else b :: insertSorted le a bs

def stableSortBy (le : TourResult → TourResult → Bool) :
    List TourResult → List TourResult
  | [] => []
  | a :: as => insertSorted le a (stableSortBy le as)

/-! ### Image assignment -/

/-- The linear-probe loop of `assignImagesForPage` (at most `poolSize`
bumps while the slot is taken). -/
def bumpIdx : Nat → Nat → List Nat → Nat → Nat
  | 0, idx, _, _ => idx
  | fuel + 1, idx, used, poolSize =>
      if idx ∈ used then bumpIdx fuel ((idx + 1) % poolSize) used poolSize else idx

/-- The page walk of `assignImagesForPage` (mock source). -/
def assignImagesGo (env : MockEnv) (seed : String) (offset : Int)
    (start poolSize pageSize : Nat) (pool : List String) :
    List TourResult → Nat → List Nat → List TourResult
  | [], _, _ => []
  | t :: rest, indexInPage, used =>
      let spin := env.sha1Int (seed ++ "|" ++ toString t.hotel_id ++ "|" ++
        toString offset ++ "|" ++ toString indexInPage) % poolSize
      let idx0 := (start + indexInPage + spin) % poolSize
      let idx := if pageSize ≤ poolSize then bumpIdx poolSize idx0 used poolSize else idx0
      let used1 := if pageSize ≤ poolSize then idx :: used else used
      { t with image_url := some (pool.getD idx "") } ::
        assignImagesGo env seed offset start poolSize pageSize pool rest
          (indexInPage + 1) used1

/-- `assignImagesForPage` (mock source). -/
def assignImagesForPage (env : MockEnv) (seed slug : String) (offset : Int)
    (page : List TourResult) : List TourResult :=
  let pool := env.imagePool slug
  if pool.length = 0 then page.map (fun t => { t with image_url := none })
  else
    let start := env.sha1Int (seed ++ "|" ++ slug ++ "|" ++ toString offset) % pool.length
    assignImagesGo env seed offset start pool.length page.length pool page 0 []

/-! ### `mockSearchTours` -/

/-- The output record (types source), with `meta` flattened. -/
structure MockOutput where
  requestid : String
  results : List TourResult
  timed_out : Bool
  polls : Int
  ms : Int
  deriving DecidableEq, Repr

/-- The filter predicate of `mockSearchTours` (mock source), as a function
of the normalized filter parameters. -/
def mockFilterPred (nLo nHi : Int) (budgetMin budgetMax : Frac)
    (ratingMin : Option Frac) (mealFilter : Option String) (t : TourResult) : Bool :=
  decide (nLo ≤ t.nights) && decide (t.nights ≤ nHi) &&
  (!(ltbF (intF 0) budgetMin && ltbF t.price budgetMin)) &&
  (!(ltbF (intF 0) budgetMax && ltbF budgetMax t.price)) &&
  (match ratingMin with
   | some rm =>
       if ltbF (intF 0) rm then
         match t.rating with
         | some rv => !(ltbF rv rm)
         | none => false
       else true
   | none => true) &&
  (match mealFilter with
   | some mf => if mf = "" then true else decide (asciiUpper t.meal = mf)
   | none => true)

/-- `mockSearchTours` (mock source).  `now` is the wall clock in epoch
days; `startedAt`/`finishedAt` are the wall-clock milliseconds around the
call (the drawn latency only feeds the artificial `sleep`). -/
def mockSearchTours (env : MockEnv) (now : Frac) (startedAt finishedAt : Int)
    (input : MockInput) : MockOutput :=
  let seed := makeSeedFromInput env input
  let generated := buildTours env input seed now
  let nr := resolveEffectiveNightsRange input
  let budgetMax := input.budget_max.getD (intF 0)
  let budgetMin := input.budget_min.getD (intF 0)
  let ratingMin := input.rating
  let mealFilter := normalizeMealFilter input.meal
  let sort := normalizeSort input.sort
  let limit := normalizeLimit input.limit
  let offset := normalizeOffset input.offset
  let dest := resolveDestination input
  let filtered := generated.filter (mockFilterPred nr.1 nr.2 budgetMin budgetMax ratingMin mealFilter)
  let sorted :=
    if sort = SortOrder.price_desc then
      stableSortBy (fun a b => lebF b.price a.price) filtered
    else
      stableSortBy (fun a b => lebF a.price b.price) filtered
  let page := (sorted.drop offset.toNat).take limit.toNat
  let withImages := assignImagesForPage env seed dest.slug offset page
  let results := withImages.map (fun t =>
    { t with raw_provider := "mock", raw_seed := seed,
             raw_debug := if env.mockDebug then some (sort, limit, offset) else none })
  { requestid := "mock-" ++ (env.sha1Hex seed).take 12,
    results := results,
    timed_out := false, polls := 1, ms := finishedAt - startedAt }

/-! ### C9: determinism of the synthetic backend -/

/-- The wall clock flows into `buildTours` only through the parse fallback
of invalid dates and the relative-period windows: with valid explicit dates
and no relative period the generated market is clock-independent. -/
theorem buildTours_clock_irrelevant (env : MockEnv) (input : MockInput) (seed : String)
    (now1 now2 : Frac)
    (hfrom : (dateToDay input.date_from).isSome = true)
    (hto : (dateToDay input.date_to).isSome = true)
    (hper : ∀ p, normalizePeriod input.period = some p →
      p = PeriodCode.summer ∨ p = PeriodCode.autumn) :
    buildTours env input seed now1 = buildTours env input seed now2 := by
  obtain ⟨df, hdf⟩ := Option.isSome_iff_exists.mp hfrom
  obtain ⟨dt, hdt⟩ := Option.isSome_iff_exists.mp hto
  have h1 : ∀ fb, parseDateSafe input.date_from fb = intF df := by
    intro fb
    unfold parseDateSafe
    rw [hdf]
  have h2 : ∀ fb, parseDateSafe input.date_to fb = intF dt := by
    intro fb
    unfold parseDateSafe
    rw [hdt]
  have h3 : ∀ f t, resolvePeriodDates (normalizePeriod input.period) f t now1
      = resolvePeriodDates (normalizePeriod input.period) f t now2 := by
    intro f t
    rcases hp : normalizePeriod input.period with _ | p
    · rfl
    · rcases hper p hp with h | h <;> subst h <;> rfl
  unfold buildTours
  simp only [h1, h2, h3]

/-- C9 (amended).  The synthetic backend is deterministic exactly on the
inputs whose date window does not involve the clock: for every choice of
the hash collaborators and image pool, two calls of `mockSearchTours`
with identical input — an explicit seed, or the seed derived
deterministically from the input parameter set — whose explicit dates are
valid and whose period, if any, is absolute (`summer`/`autumn`), return
the identical ordered result list with identical `image_url` assignments
and the same request id, whatever the wall-clock instants of the two
calls (`meta.ms` may differ).  For relative periods
(`next_month`/`1_2_months`), and for missing or invalid explicit dates,
the window is anchored at the current day and repeated identical-input
calls on different days differ, as the separate counterexample shows. -/
theorem mock_search_deterministic (env : MockEnv) (input : MockInput)
    (now1 now2 : Frac) (s1 e1 s2 e2 : Int)
    (hfrom : (dateToDay input.date_from).isSome = true)
    (hto : (dateToDay input.date_to).isSome = true)
    (hper : ∀ p, normalizePeriod input.period = some p →
      p = PeriodCode.summer ∨ p = PeriodCode.autumn) :
    (mockSearchTours env now1 s1 e1 input).results
      = (mockSearchTours env now2 s2 e2 input).results ∧
    (mockSearchTours env now1 s1 e1 input).requestid
      = (mockSearchTours env now2 s2 e2 input).requestid := by
  have hbuild := buildTours_clock_irrelevant env input (makeSeedFromInput env input)
    now1 now2 hfrom hto hper
  constructor
  · simp only [mockSearchTours]
    rw [hbuild]
  · simp only [mockSearchTours]

/-- Environment for the concrete witnesses: trivial hash collaborators and
an empty image pool. -/
def mockEnvW : MockEnv :=
  { seedHash := fun _ => "s", digest32 := fun _ => 1, sha1Int := fun _ => 0,
    sha1Hex := fun _ => "", imagePool := fun _ => [], mockDebug := false }

/-- Concrete input for the witnesses: Turkey, 7 nights, explicit June 2026
dates, page size 1. -/
def mockInputW : MockInput :=
  { date_from := some "2026-06-01", date_to := some "2026-06-20",
    country_id := some (intF 47), nights_min := some (intF 7),
    nights_max := some (intF 7), limit := some (intF 1) }

/-- Concrete relative-period input: Turkey, 7 nights, `period` set to
`next_month`, no explicit dates, page size 1. -/
def mockInputP : MockInput :=
  { period := some "next_month", country_id := some (intF 47),
    nights_min := some (intF 7), nights_max := some (intF 7),
    limit := some (intF 1) }

/-- C9 counterexample: for a relative period the backend is NOT
deterministic across repeated calls — `resolvePeriodDates` anchors the
`next_month` window at the current day, so the same input issued on two
different days (identical seed derivation, identical RNG draws) returns
tours with different `date_from` values: the ordered result lists differ. -/
theorem mock_search_relative_period_clock_dependent :
    (mockSearchTours mockEnvW (intF 20600) 0 5 mockInputP).results
      ≠ (mockSearchTours mockEnvW (intF 20700) 0 5 mockInputP).results := by
  decide

/-- Witness for `mock_search_deterministic`: two calls on different days
and with different latencies agree on results and request id. -/
theorem mock_search_deterministic_witness :
    (mockSearchTours mockEnvW (intF 20600) 0 5 mockInputW).results
      = (mockSearchTours mockEnvW (intF 20700) 100 999 mockInputW).results := by
  exact (mock_search_deterministic mockEnvW mockInputW (intF 20600) (intF 20700)
    0 5 100 999 (by decide) (by decide)
    (by
      intro p hp
      simp [mockInputW, normalizePeriod, normalizeTextO] at hp)).1

/-! ### C10: every returned tour satisfies the requested filters -/

theorem lebF_of_not_ltbF (x y : Frac) (h : ltbF x y = false) : lebF y x = true := by
  simp only [ltbF, decide_eq_false_iff_not, not_lt] at h
  simpa [lebF] using h

theorem le_floorF_of_mul_le {k : Int} {q : Frac} (hden : 0 < q.den)
    (h : k * q.den ≤ q.num) : k ≤ floorF q := by
  unfold floorF
  rwa [Int.le_ediv_iff_mul_le hden]

theorem floorF_le_of_le_mul {k : Int} {q : Frac} (hden : 0 < q.den)
    (h : q.num ≤ k * q.den) : floorF q ≤ k := by
  unfold floorF
  calc q.num / q.den ≤ k * q.den / q.den := Int.ediv_le_ediv hden h
    _ = k := Int.mul_ediv_cancel k (ne_of_gt hden)

theorem floorF_mono {a b : Frac} (ha : 0 < a.den) (hb : 0 < b.den)
    (h : a.num * b.den ≤ b.num * a.den) : floorF a ≤ floorF b := by
  unfold floorF
  have h1 : a.num / a.den = b.den * a.num / (b.den * a.den) :=
    (Int.mul_ediv_mul_of_pos a.num a.den hb).symm
  have h2 : b.num / b.den = a.den * b.num / (a.den * b.den) :=
    (Int.mul_ediv_mul_of_pos b.num b.den ha).symm
  rw [h1, h2, show a.den * b.den = b.den * a.den from Int.mul_comm _ _]
  exact Int.ediv_le_ediv (Int.mul_pos hb ha) (by nlinarith)

/-- Clamping a well-formed number to 1–30 yields a well-formed value
between 1 and 30. -/
theorem clamp_1_30_facts (q : Frac) (hden : 0 < q.den) :
    0 < (clampF q (intF 1) (intF 30)).den ∧
    1 * (clampF q (intF 1) (intF 30)).den ≤ (clampF q (intF 1) (intF 30)).num ∧
    (clampF q (intF 1) (intF 30)).num ≤ 30 * (clampF q (intF 1) (intF 30)).den := by
  unfold clampF maxF minF
  simp only [lebF, intF, decide_eq_true_eq]
  split <;> split <;> simp_all <;> omega

/-- The effective nights range is ordered and lies inside 1–30 (for
well-formed numeric inputs, i.e. positive denominators in this embedding). -/
theorem nightsRange_facts (input : MockInput)
    (hmn : 0 < (input.nights_min.getD (intF 6)).den)
    (hmx : 0 < (input.nights_max.getD (intF 10)).den) :
    1 ≤ (resolveEffectiveNightsRange input).1 ∧
    (resolveEffectiveNightsRange input).1 ≤ (resolveEffectiveNightsRange input).2 ∧
    (resolveEffectiveNightsRange input).2 ≤ 30 := by
  obtain ⟨hd1, hl1, hu1⟩ := clamp_1_30_facts (input.nights_min.getD (intF 6)) hmn
  obtain ⟨hd2, hl2, hu2⟩ := clamp_1_30_facts (input.nights_max.getD (intF 10)) hmx
  simp only [resolveEffectiveNightsRange]
  split
  · rename_i hlt
    simp only [ltbF, decide_eq_true_eq] at hlt
    refine ⟨by simpa using le_floorF_of_mul_le hd2 hl2, ?_,
      by simpa using floorF_le_of_le_mul hd1 hu1⟩
    exact floorF_mono hd2 hd1 (le_of_lt hlt)
  · rename_i hge
    simp only [ltbF, decide_eq_true_eq, not_lt] at hge
    refine ⟨by simpa using le_floorF_of_mul_le hd1 hl1, ?_,
      by simpa using floorF_le_of_le_mul hd2 hu2⟩
    exact floorF_mono hd1 hd2 hge

/-- The fields the filter inspects. -/
def coreEq (a b : TourResult) : Prop :=
  a.price = b.price ∧ a.nights = b.nights ∧ a.rating = b.rating ∧ a.meal = b.meal

theorem coreEq_trans {a b c : TourResult} (h1 : coreEq a b) (h2 : coreEq b c) :
    coreEq a c := by
  obtain ⟨p1, n1, r1, m1⟩ := h1
  obtain ⟨p2, n2, r2, m2⟩ := h2
  exact ⟨p1.trans p2, n1.trans n2, r1.trans r2, m1.trans m2⟩

theorem mem_insertSorted {le : TourResult → TourResult → Bool} {x a : TourResult} :
    ∀ {l : List TourResult}, a ∈ insertSorted le x l → a = x ∨ a ∈ l := by
  intro l
  induction l with
  | nil =>
      intro h
      simp [insertSorted] at h
      exact Or.inl h
  | cons b bs ih =>
      intro h
      unfold insertSorted at h
      split at h
      · rcases List.mem_cons.mp h with h' | h'
        · exact Or.inl h'
        · exact Or.inr h'
      · rcases List.mem_cons.mp h with h' | h'
        · exact Or.inr (List.mem_cons.mpr (Or.inl h'))
        · rcases ih h' with h'' | h''
          · exact Or.inl h''
          · exact Or.inr (List.mem_cons.mpr (Or.inr h''))

theorem mem_stableSortBy {le : TourResult → TourResult → Bool} {a : TourResult} :
    ∀ {l : List TourResult}, a ∈ stableSortBy le l → a ∈ l := by
  intro l
  induction l with
  | nil => intro h; simpa [stableSortBy] using h
  | cons x xs ih =>
      intro h
      unfold stableSortBy at h
      rcases mem_insertSorted h with h' | h'
      · exact h' ▸ List.mem_cons_self x xs
      · exact List.mem_cons.mpr (Or.inr (ih h'))

theorem assignImagesGo_core (env : MockEnv) (seed : String) (offset : Int)
    (start poolSize pageSize : Nat) (pool : List String) :
    ∀ (page : List TourResult) (idx : Nat) (used : List Nat) (a : TourResult),
      a ∈ assignImagesGo env seed offset start poolSize pageSize pool page idx used →
      ∃ t, t ∈ page ∧ coreEq a t := by
  intro page
  induction page with
  | nil => intro idx used a h; simp [assignImagesGo] at h
  | cons t rest ih =>
      intro idx used a h
      unfold assignImagesGo at h
      rcases List.mem_cons.mp h with h' | h'
      · exact ⟨t, List.mem_cons_self t rest, by rw [h']; exact ⟨rfl, rfl, rfl, rfl⟩⟩
      · obtain ⟨u, hu, hcore⟩ := ih _ _ a h'
        exact ⟨u, List.mem_cons.mpr (Or.inr hu), hcore⟩

theorem assignImagesGo_length (env : MockEnv) (seed : String) (offset : Int)
    (start poolSize pageSize : Nat) (pool : List String) :
    ∀ (page : List TourResult) (idx : Nat) (used : List Nat),
      (assignImagesGo env seed offset start poolSize pageSize pool page idx used).length
        = page.length := by
  intro page
  induction page with
  | nil => intro idx used; rfl
  | cons t rest ih =>
      intro idx used
      unfold assignImagesGo
      simp [ih]

theorem assignImagesForPage_core (env : MockEnv) (seed slug : String) (offset : Int)
    (page : List TourResult) (a : TourResult)
    (h : a ∈ assignImagesForPage env seed slug offset page) :
    ∃ t, t ∈ page ∧ coreEq a t := by
  simp only [assignImagesForPage] at h
  split at h
  · obtain ⟨t, ht, rfl⟩ := List.mem_map.mp h
    exact ⟨t, ht, ⟨rfl, rfl, rfl, rfl⟩⟩
  · exact assignImagesGo_core env seed offset _ _ _ _ page 0 [] a h

theorem assignImagesForPage_length (env : MockEnv) (seed slug : String) (offset : Int)
    (page : List TourResult) :
    (assignImagesForPage env seed slug offset page).length = page.length := by
  simp only [assignImagesForPage]
  split
  · exact List.length_map page _
  · exact assignImagesGo_length env seed offset _ _ _ _ page 0 []

theorem normalizeMealFilter_ne_empty (m : Option (Sum String Frac)) (mf : String)
    (h : normalizeMealFilter m = some mf) : mf ≠ "" := by
  rcases m with _ | m
  · simp [normalizeMealFilter] at h
  · rcases m with s | q
    · simp only [normalizeMealFilter] at h
      split at h
      · exact absurd h (by simp)
      · rename_i hne
        push_neg at hne
        simp only [Option.some.injEq] at h
        subst h
        exact hne.1
    · simp only [normalizeMealFilter] at h
      by_cases h0 : lebF q (intF 0) = true
      · rw [if_pos h0] at h
        exact absurd h (by simp)
      · rw [if_neg h0] at h
        by_cases hcond : isIntF q = true ∧ 1 ≤ floorF q ∧ floorF q ≤ 5
        · rw [if_pos hcond] at h
          simp only [Option.some.injEq] at h
          subst h
          obtain ⟨-, h1, h5⟩ := hcond
          have hlt : (floorF q - 1).toNat < 5 := by omega
          have hne' : ∀ k : Fin 5, mealCodesList.getD k.val "" ≠ "" := by decide
          exact hne' ⟨(floorF q - 1).toNat, hlt⟩
        · rw [if_neg hcond] at h
          exact absurd h (by simp)

/-- Decomposition of the filter predicate. -/
theorem mockFilterPred_spec (nLo nHi : Int) (budgetMin budgetMax : Frac)
    (ratingMin : Option Frac) (mealFilter : Option String) (t : TourResult)
    (h : mockFilterPred nLo nHi budgetMin budgetMax ratingMin mealFilter t = true) :
    nLo ≤ t.nights ∧ t.nights ≤ nHi ∧
    (ltbF (intF 0) budgetMin = true → lebF budgetMin t.price = true) ∧
    (ltbF (intF 0) budgetMax = true → lebF t.price budgetMax = true) ∧
    (∀ rm, ratingMin = some rm → ltbF (intF 0) rm = true →
      ∃ rv, t.rating = some rv ∧ lebF rm rv = true) ∧
    (∀ mf, mealFilter = some mf → mf ≠ "" → asciiUpper t.meal = mf) := by
  unfold mockFilterPred at h
  simp only [Bool.and_eq_true, Bool.not_eq_true', Bool.and_eq_false_iff,
    decide_eq_true_eq] at h
  obtain ⟨⟨⟨⟨⟨h1, h2⟩, h3⟩, h4⟩, h5⟩, h6⟩ := h
  refine ⟨h1, h2, ?_, ?_, ?_, ?_⟩
  · intro hpos
    rcases h3 with h3 | h3
    · exact absurd hpos (by simp [h3])
    · exact lebF_of_not_ltbF _ _ h3
  · intro hpos
    rcases h4 with h4 | h4
    · exact absurd hpos (by simp [h4])
    · exact lebF_of_not_ltbF _ _ h4
  · intro rm hrm hpos
    simp only [hrm, hpos, if_true] at h5
    rcases hr : t.rating with _ | rv
    · simp only [hr] at h5
      exact absurd h5 (by decide)
    · simp only [hr, Bool.not_eq_true'] at h5
      exact ⟨rv, rfl, lebF_of_not_ltbF _ _ h5⟩
  · intro mf hmf hne
    simp only [hmf, hne, if_false, decide_eq_true_eq] at h6
    exact h6

theorem normalizeLimit_le_20 (l : Option Frac) : normalizeLimit l ≤ 20 := by
  rcases l with _ | q
  · simp only [normalizeLimit]
    omega
  · simp only [normalizeLimit]
    split
    · omega
    · exact le_trans (min_le_left _ _) (by omega)

/-- C10.  Every tour returned by the synthetic backend respects the
requested filters: its nights lie inside the effective range (the
clamped-to-1–30, swap-if-inverted interval, which is ordered), its price
is at least `budget_min` when `budget_min > 0` and at most `budget_max`
when `budget_max > 0`, its rating is present and at least the requested
minimum when a positive rating filter is given, its meal equals the
normalized meal filter when one is given, and at most `limit` (itself
capped at 20) items are returned per page. -/
theorem mock_results_respect_filters (env : MockEnv) (now : Frac)
    (sMs eMs : Int) (input : MockInput) (t : TourResult)
    (hmn : 0 < (input.nights_min.getD (intF 6)).den)
    (hmx : 0 < (input.nights_max.getD (intF 10)).den)
    (hmem : t ∈ (mockSearchTours env now sMs eMs input).results) :
    (1 ≤ (resolveEffectiveNightsRange input).1 ∧
     (resolveEffectiveNightsRange input).1 ≤ (resolveEffectiveNightsRange input).2 ∧
     (resolveEffectiveNightsRange input).2 ≤ 30) ∧
    (resolveEffectiveNightsRange input).1 ≤ t.nights ∧
    t.nights ≤ (resolveEffectiveNightsRange input).2 ∧
    (ltbF (intF 0) (input.budget_min.getD (intF 0)) = true →
      lebF (input.budget_min.getD (intF 0)) t.price = true) ∧
    (ltbF (intF 0) (input.budget_max.getD (intF 0)) = true →
      lebF t.price (input.budget_max.getD (intF 0)) = true) ∧
    (∀ rm, input.rating = some rm → ltbF (intF 0) rm = true →
      ∃ rv, t.rating = some rv ∧ lebF rm rv = true) ∧
    (∀ mf, normalizeMealFilter input.meal = some mf → asciiUpper t.meal = mf) ∧
    (mockSearchTours env now sMs eMs input).results.length
      ≤ (normalizeLimit input.limit).toNat ∧
    normalizeLimit input.limit ≤ 20 := by
  obtain ⟨hr1, hr2, hr3⟩ := nightsRange_facts input hmn hmx
  have hlen : (mockSearchTours env now sMs eMs input).results.length
      ≤ (normalizeLimit input.limit).toNat := by
    simp only [mockSearchTours, List.length_map]
    rw [assignImagesForPage_length]
    exact List.length_take_le _ _
  simp only [mockSearchTours] at hmem
  obtain ⟨u, hu, hteq⟩ := List.mem_map.mp hmem
  have hcore0 : coreEq t u := by
    rw [← hteq]
    exact ⟨rfl, rfl, rfl, rfl⟩
  obtain ⟨v, hv, hcore1⟩ := assignImagesForPage_core _ _ _ _ _ u hu
  have hv1 := List.mem_of_mem_drop (List.mem_of_mem_take hv)
  have hvf : v ∈ List.filter
      (mockFilterPred (resolveEffectiveNightsRange input).1
        (resolveEffectiveNightsRange input).2
        (input.budget_min.getD (intF 0)) (input.budget_max.getD (intF 0))
        input.rating (normalizeMealFilter input.meal))
      (buildTours env input (makeSeedFromInput env input) now) := by
    split at hv1
    · exact mem_stableSortBy hv1
    · exact mem_stableSortBy hv1
  obtain ⟨hvmem, hvpred⟩ := List.mem_filter.mp hvf
  obtain ⟨p1, p2, p3, p4, p5, p6⟩ :=
    mockFilterPred_spec _ _ _ _ _ _ v hvpred
  obtain ⟨hp, hn, hrg, hm⟩ := coreEq_trans hcore0 hcore1
  refine ⟨⟨hr1, hr2, hr3⟩, ?_, ?_, ?_, ?_, ?_, ?_, hlen, normalizeLimit_le_20 _⟩
  · rw [hn]; exact p1
  · rw [hn]; exact p2
  · intro hpos
    rw [hp]
    exact p3 hpos
  · intro hpos
    rw [hp]
    exact p4 hpos
  · intro rm hrm hpos
    rw [hrg]
    exact p5 rm hrm hpos
  · intro mf hmf
    rw [hm]
    exact p6 mf hmf (normalizeMealFilter_ne_empty _ _ hmf)

/-- First result of the concrete witness call (defaulting to a dummy tour
if the page were empty). -/
def mockTour0 : TourResult :=
  ((mockSearchTours mockEnvW (intF 20600) 0 5 mockInputW).results).headD
    { price := intF 0, currency := "", date_from := intF 0, nights := 0,
      operator := "", hotel_id := 0, hotel_name := "", stars := 0,
      rating := none, meal := "", room := "", country_name := "",
      city_name := "", flag_emoji := "", image_url := none,
      raw_provider := "", raw_seed := "", raw_debug := none }

/-- Witness for `mock_results_respect_filters`: the single result of the
concrete call (Turkey, nights 7–7, limit 1) has its nights inside the
effective range and the page limit is capped at 20. -/
theorem mock_results_respect_filters_witness :
    (resolveEffectiveNightsRange mockInputW).1 ≤ mockTour0.nights ∧
    mockTour0.nights ≤ (resolveEffectiveNightsRange mockInputW).2 ∧
    normalizeLimit mockInputW.limit ≤ 20 := by
  have h := mock_results_respect_filters mockEnvW (intF 20600) 0 5 mockInputW
    mockTour0 (by decide) (by decide) (by decide)
  exact ⟨h.2.1, h.2.2.1, h.2.2.2.2.2.2.2.2⟩

end Spec2Proof
